import Mathlib

/-!
Verification of the token-cluster attribution engine
(`analyzeHoldings` and its helpers in the holdings analyzer module).

The engine is embedded shallowly:

* JavaScript `number` values that arise from parsing transfer amounts are
  modeled by `JNum := Option ℚ`, where `none` plays the role of IEEE `NaN`
  and `some q` is a finite value represented exactly as a rational.
  Every arithmetic operation and comparison mirrors IEEE semantics for
  these two classes of values: `NaN` is absorbing for arithmetic and all
  ordering comparisons (and `===`) involving `NaN` are `false`.
  Infinities do not occur: every division in the source is guarded so that
  a reached division always has a nonzero finite divisor.
* Timestamps parsed with `parseInt` are modeled by `Option ℤ`
  (`none` again standing for `NaN`).
* JavaScript `Map` (insertion ordered, `set` overwriting in place) is
  modeled by an association list with an order-preserving `alSet`;
  `Set` is a list with membership-checked insertion.
* `Array.prototype.sort` (stable since ES2019) is modeled by a stable
  insertion sort; the boolean `le` given to it is "comparator result ≤ 0".
* Locale-dependent display formatting (`toLocaleString`,
  `toLocaleDateString`) is modeled by simple deterministic renderings:
  no verified property depends on the exact text these produce.
-/

set_option maxRecDepth 8000

namespace TokenCluster

/-! ### JavaScript numbers: exact rationals plus NaN -/

/-- A JavaScript number as produced by the engine's arithmetic:
`none` models `NaN`, `some q` a finite value (exact rational model). -/
abbrev JNum := Option ℚ

/-- JS `+` on numbers (NaN absorbing). -/
def jsAdd : JNum → JNum → JNum
  | some a, some b => some (a + b)
  | _, _ => none

/-- JS `-` on numbers (NaN absorbing). -/
def jsSub : JNum → JNum → JNum
  | some a, some b => some (a - b)
  | _, _ => none

/-- JS `*` on numbers (NaN absorbing). -/
def jsMul : JNum → JNum → JNum
  | some a, some b => some (a * b)
  | _, _ => none

/-- JS `/` on numbers.  NaN is absorbing.  In this code base every reached
division has a nonzero divisor (all divisions are guarded by a positivity
or nonzero test), so the `b = 0` case — which real JS would turn into an
infinity — is unreachable and mapped to `none`. -/
def jsDiv : JNum → JNum → JNum
  | some a, some b => if b = 0 then none else some (a / b)
  | _, _ => none

/-- JS `<` (false whenever an operand is NaN). -/
def jsLt (a b : JNum) : Bool :=
  match a, b with
  | some a, some b => decide (a < b)
  | _, _ => false

/-- JS `>` (false whenever an operand is NaN). -/
def jsGt (a b : JNum) : Bool :=
  match a, b with
  | some a, some b => decide (b < a)
  | _, _ => false

/-- JS `<=` (false whenever an operand is NaN). -/
def jsLe (a b : JNum) : Bool :=
  match a, b with
  | some a, some b => decide (a ≤ b)
  | _, _ => false

/-- JS `>=` (false whenever an operand is NaN). -/
def jsGe (a b : JNum) : Bool :=
  match a, b with
  | some a, some b => decide (b ≤ a)
  | _, _ => false

/-- JS `===` on numbers (false whenever an operand is NaN). -/
def jsEq (a b : JNum) : Bool :=
  match a, b with
  | some a, some b => decide (a = b)
  | _, _ => false

/-- JS `x || 0` applied to a number: NaN (and 0 itself) are falsy. -/
def jsOrZero : JNum → JNum
  | none => some 0
  | some q => some q

/-! ### Integer (timestamp) variants -/

/-- JS `-` on `parseInt` results. -/
def ziSub : Option ℤ → Option ℤ → Option ℤ
  | some a, some b => some (a - b)
  | _, _ => none

/-- JS `<` on `parseInt` results. -/
def ziLt (a b : Option ℤ) : Bool :=
  match a, b with
  | some a, some b => decide (a < b)
  | _, _ => false

/-- JS `>` on `parseInt` results. -/
def ziGt (a b : Option ℤ) : Bool :=
  match a, b with
  | some a, some b => decide (b < a)
  | _, _ => false

/-! ### Number parsing (`parseFloat`, `parseInt`) -/

/-- Numeric value of a run of decimal digit characters. -/
def digitsToNat : List Char → ℕ :=
  List.foldl (fun acc c => 10 * acc + (c.toNat - 48)) 0

/-- Split off a leading run of decimal digits. -/
def spanDigits (cs : List Char) : List Char × List Char :=
  cs.span (fun c => c.isDigit)

/-- Consume an optional leading sign, returning the sign as `1` or `-1`. -/
def parseSign : List Char → ℤ × List Char
  | '-' :: cs => (-1, cs)
  | '+' :: cs => (1, cs)
  | cs => (1, cs)

/-- Exponent suffix of a JS float literal (`e`/`E`, optional sign, digits);
an exponent with no digits contributes nothing, as in JS where the parsed
prefix then ends before the `e`. -/
def parseExpPart (cs : List Char) : ℤ :=
  match cs with
  | 'e' :: rest | 'E' :: rest =>
    let (sg, rest) := parseSign rest
    let (ds, _) := spanDigits rest
    if ds.isEmpty then 0 else sg * (digitsToNat ds : ℤ)
  | _ => 0

/-- Model of JS `parseFloat`: longest numeric prefix after optional leading
whitespace; `none` (NaN) when no digits can be read.  The `Infinity`
literals, which no input of this code base uses, are treated as
unparseable. -/
def parseFloat (s : String) : JNum :=
  let cs := s.toList.dropWhile (fun c => c.isWhitespace)
  let (sg, cs) := parseSign cs
  let (ip, cs) := spanDigits cs
  let (fp, cs) :=
    match cs with
    | '.' :: rest => spanDigits rest
    | _ => ([], cs)
  if ip.isEmpty && fp.isEmpty then none
  else
    let mant : ℚ := (digitsToNat ip : ℚ) + (digitsToNat fp : ℚ) / (10 : ℚ) ^ fp.length
    some ((sg : ℚ) * mant * (10 : ℚ) ^ parseExpPart cs)

/-- Model of JS `parseInt(s, 10)`: optional whitespace, optional sign,
leading decimal digits; `none` (NaN) when no digits can be read. -/
def parseIntJS (s : String) : Option ℤ :=
  let cs := s.toList.dropWhile (fun c => c.isWhitespace)
  let (sg, cs) := parseSign cs
  let (ds, _) := spanDigits cs
  if ds.isEmpty then none else some (sg * (digitsToNat ds : ℤ))

/-! ### Strings, association lists, sets, stable sort -/

/-- Kernel-reducible model of `String.prototype.toLowerCase` (ASCII). -/
def lowerStr (s : String) : String :=
  ⟨s.data.map Char.toLower⟩

/-- Kernel-reducible `Array.prototype.join`. -/
def joinSep (sep : String) : List String → String
  | [] => ""
  | [x] => x
  | x :: xs => x ++ sep ++ joinSep sep xs

/-- Whether `pat` occurs as a prefix of `cs` (character lists). -/
def startsWithL : List Char → List Char → Bool
  | [], _ => true
  | _ :: _, [] => false
  | p :: ps, c :: cs => p == c && startsWithL ps cs

/-- Whether `pat` occurs as a contiguous substring of `cs`. -/
def hasSubstrL (pat : List Char) : List Char → Bool
  | [] => startsWithL pat []
  | c :: cs => startsWithL pat (c :: cs) || hasSubstrL pat cs

/-- Model of JS `String.prototype.includes`. -/
def hasSubstr (s pat : String) : Bool :=
  hasSubstrL pat.toList s.toList

/-- `abbr`: `addr.slice(0, 6) + '...' + addr.slice(-4)`. -/
def abbr (addr : String) : String :=
  ⟨addr.data.take 6⟩ ++ "..." ++ ⟨addr.data.drop (addr.data.length - 4)⟩

/-- JS `Map.prototype.set`: replace the value of an existing key in place,
otherwise append, preserving insertion order. -/
def alSet {α : Type} : List (String × α) → String → α → List (String × α)
  | [], k, v => [(k, v)]
  | (k', v') :: rest, k, v =>
    if k' == k then (k, v) :: rest else (k', v') :: alSet rest k v

/-- JS `Set.prototype.add`: append unless already present. -/
def insertIfAbsent (l : List String) (x : String) : List String :=
  if l.contains x then l else l ++ [x]

/-- Stable insertion used by `stableSort`: `x` goes in front of the first
element `y` with `le x y`, so elements equal under the comparator keep
their original relative order. -/
def stableInsert {α : Type} (le : α → α → Bool) (x : α) : List α → List α
  | [] => [x]
  | y :: ys => if le x y then x :: y :: ys else y :: stableInsert le x ys

/-- Model of `Array.prototype.sort` (stable, ES2019).  `le a b` stands for
"comparator(a, b) ≤ 0 or is NaN". -/
def stableSort {α : Type} (le : α → α → Bool) : List α → List α
  | [] => []
  | x :: xs => stableInsert le x (stableSort le xs)

theorem stableInsert_perm {α : Type} (le : α → α → Bool) (x : α) :
    ∀ l : List α, List.Perm (stableInsert le x l) (x :: l)
  | [] => List.Perm.refl _
  | y :: ys => by
    unfold stableInsert
    by_cases h : le x y = true
    · simp [h]
    · simp only [h]
      exact ((stableInsert_perm le x ys).cons y).trans (List.Perm.swap x y ys)

theorem stableSort_perm {α : Type} (le : α → α → Bool) :
    ∀ l : List α, List.Perm (stableSort le l) l
  | [] => List.Perm.refl _
  | x :: xs =>
    (stableInsert_perm le x (stableSort le xs)).trans ((stableSort_perm le xs).cons x)

theorem mem_stableSort {α : Type} (le : α → α → Bool) (l : List α) (a : α) :
    a ∈ stableSort le l ↔ a ∈ l :=
  (stableSort_perm le l).mem_iff

/-! ### Data model (`types.ts`, version used by the final analyzer) -/

/-- `TransferTx`: one observed token-transfer event.  `from` is a Lean
keyword, hence the field name `from_`. -/
structure TransferTx where
  hash : String
  from_ : String
  to_ : String
  value : String
  timeStamp : String
  tokenSymbol : String
  tokenName : String
  tokenDecimal : String
  contractAddress : String
deriving DecidableEq, Repr

/-- `GraphNode` as consumed by the analyzer.  `lpBalance` and
`stakedBalance` are the nullable DeFi-position fields the final analyzer
reads with `?? 0`. -/
structure GraphNode where
  id : String
  address : String
  isTarget : Bool
  isContract : Bool
  label : Option String
  txCount : ℕ
  volIn : ℚ
  volOut : ℚ
  balance : Option ℚ
  firstSeen : ℤ
  lastSeen : ℤ
  lpBalance : Option ℚ
  stakedBalance : Option ℚ
deriving DecidableEq, Repr

/-- Direction tag of a `GraphLink`. -/
inductive LinkDirection where
  | sent
  | received
deriving DecidableEq, Repr

/-- `GraphLink`: aggregated flow between two addresses. -/
structure GraphLink where
  source : String
  target : String
  value : ℚ
  txCount : ℕ
  direction : LinkDirection
deriving DecidableEq, Repr

/-- `ScanResult`: the caller-supplied input bundle. -/
structure ScanResult where
  nodes : List GraphNode
  links : List GraphLink
  transfers : List TransferTx
  detectedContracts : List String
  balances : List (String × ℚ)
deriving DecidableEq, Repr

/-- `TokenOrigin` classification. -/
inductive TokenOrigin where
  | fromTarget
  | fromDex
  | fromThirdParty
  | mixed
  | unknown
deriving DecidableEq, Repr

/-- Status of a second-hop recipient. -/
inductive RecipientStatus where
  | holding
  | sold
  | passedAlong
  | mixed
deriving DecidableEq, Repr

/-- Confidence tier of a reported wallet. -/
inductive Confidence where
  | high
  | medium
  | low
deriving DecidableEq, Repr

/-- `RecipientDisposition`: what one downstream recipient did with the
tokens it received. -/
structure RecipientDisposition where
  address : String
  amountReceived : JNum
  currentBalance : ℚ
  soldFromHere : JNum
  passedAlong : JNum
  stillHolding : ℚ
  status : RecipientStatus
deriving DecidableEq, Repr

/-- `soldOnDex` bucket of a `DispositionBreakdown`. -/
structure DexBucket where
  amount : JNum
  percentage : JNum
  txCount : ℕ
  dexes : List String
deriving DecidableEq, Repr

/-- `sentToWallets` bucket of a `DispositionBreakdown`. -/
structure WalletsBucket where
  amount : JNum
  percentage : JNum
  recipients : List RecipientDisposition
deriving DecidableEq, Repr

/-- `sentToContracts` / `burnedOrLost` buckets. -/
structure SimpleBucket where
  amount : JNum
  percentage : JNum
deriving DecidableEq, Repr

/-- `addedToLP` bucket (constructed but never populated). -/
structure LPBucket where
  amount : JNum
  pairs : List String
  stillActive : Bool
deriving DecidableEq, Repr

/-- `DispositionBreakdown`: where a wallet's outbound tokens went. -/
structure DispositionBreakdown where
  soldOnDex : DexBucket
  sentToWallets : WalletsBucket
  sentToContracts : SimpleBucket
  burnedOrLost : SimpleBucket
  addedToLP : LPBucket
deriving DecidableEq, Repr

/-- `WalletHistory`: replayed lifetime trajectory of one wallet. -/
structure WalletHistory where
  address : String
  currentBalance : ℚ
  peakBalance : JNum
  peakDate : Option ℤ
  totalReceived : JNum
  totalSent : JNum
  netDisposed : JNum
  disposition : DispositionBreakdown
  isGhost : Bool
deriving DecidableEq, Repr

/-- One bucket of the target's outbound summary. -/
structure OutBucket where
  amount : JNum
  percentage : JNum
  txCount : ℕ
deriving DecidableEq, Repr

/-- A top recipient entry of the outbound summary. -/
structure TopRecipient where
  address : String
  amount : JNum
  stillHolding : ℚ
deriving DecidableEq, Repr

/-- `OutboundSummary` of the target wallet. -/
structure OutboundSummary where
  toDex : OutBucket
  toWallets : OutBucket
  toContracts : OutBucket
  topRecipients : List TopRecipient
deriving DecidableEq, Repr

/-- `WalletScore` (transient scoring record). -/
structure WalletScore where
  address : String
  score : ℤ
  reasons : List String
  fundingSource : Option String
  firstInteraction : ℤ
  lastInteraction : ℤ
  transfersWithTarget : ℕ
  netFlowFromTarget : ℚ
  balance : ℚ
  tokenOrigin : TokenOrigin
  tokenOriginDetails : String
deriving DecidableEq, Repr

/-- `HiddenHoldingWallet`: the public, persisted form of a scored wallet. -/
structure HiddenHoldingWallet where
  address : String
  balance : ℚ
  confidence : Confidence
  reasons : List String
  fundingSource : Option String
  firstInteraction : ℤ
  lastInteraction : ℤ
  transfersWithTarget : ℕ
  netFlowFromTarget : ℚ
  tokenOrigin : TokenOrigin
  tokenOriginDetails : String
  lpBalance : ℚ
  stakedBalance : ℚ
  totalHoldings : ℚ
deriving DecidableEq, Repr

/-- `HoldingsReport`: the root output object. -/
structure HoldingsReport where
  targetWallet : String
  targetBalance : ℚ
  totalHeldByCluster : ℚ
  totalPossibleHidden : ℚ
  totalWalletBalances : ℚ
  totalInLP : ℚ
  totalStaked : ℚ
  totalTrueHoldings : ℚ
  wallets : List HiddenHoldingWallet
  clusterSummary : String
  riskFlags : List String
  outboundSummary : OutboundSummary
  walletHistories : List WalletHistory
  ghostWallets : List WalletHistory
deriving DecidableEq, Repr

/-! ### Constants and display helpers -/

/-- `DEX_ROUTER_ADDRS`. -/
def DEX_ROUTER_ADDRS : List String :=
  [ "0x60ae616a2155ee3d9a68541ba4544862310933d4",
    "0xb4315e873dbcf96ffd0acd8ea43f689d8c20fb30",
    "0x18556ec73e7a7a2b4292c6b2148b570364631f28",
    "0xe54ca86531e17ef3616d22ca28b0d458b6c89106",
    "0xdef171fe48cf0115b1d80b88dc8eab59176fee57",
    "0x1111111254eeb25477b68fb85ed929f73a960582",
    "0x6131b5fae19ea4f9d964eac0408e4408b66337b5" ]

/-- `BURN_ADDRESSES`. -/
def BURN_ADDRESSES : List String :=
  [ "0x0000000000000000000000000000000000000000",
    "0x000000000000000000000000000000000000dead",
    "0xdead000000000000000000000000000000000000" ]

/-- `KNOWN_CONTRACTS` label registry (from `constants.ts`). -/
def KNOWN_CONTRACTS : List (String × String) :=
  [ ("0x60ae616a2155ee3d9a68541ba4544862310933d4", "TraderJoe Router v2"),
    ("0xb4315e873dbcf96ffd0acd8ea43f689d8c20fb30", "TraderJoe Router v2.1"),
    ("0x18556ec73e7a7a2b4292c6b2148b570364631f28", "TraderJoe Router v2.2"),
    ("0xe54ca86531e17ef3616d22ca28b0d458b6c89106", "Pangolin Router"),
    ("0xdef171fe48cf0115b1d80b88dc8eab59176fee57", "ParaSwap"),
    ("0x1111111254eeb25477b68fb85ed929f73a960582", "1inch Router"),
    ("0x6131b5fae19ea4f9d964eac0408e4408b66337b5", "KyberSwap"),
    ("0x0000000000000000000000000000000000000000", "Null Address"),
    ("0x17427af0f2e0ed27856c3288bb902115467e2540", "Ninety1 Staking"),
    ("0x86840ea36dd141719003aea81d3630917eb35d8d", "Twenty6Fifty2"),
    ("0x8f1f74e9cad296f99a6f36a56e1f3afb45571cc9", "Ninety1 NFT"),
    ("0x6bb77d0f531a4b6f1c72676a814df5e4fb50f1d6", "LeVeL Contract"),
    ("0x9748156a1784251c31eb5e2d0894be8060213737", "PASS OTC"),
    ("0x32f0c28be6a6ac5d3b471278b77f6971a3141348", "FATE v2 Token"),
    ("0x66cf3ffb034ea5bd30457662a470ad67bc96759b", "FATE v1 Token"),
    ("0xebe2eae72d6eaa44a3bca32cfdf81d3a687917c2", "EVB Token"),
    ("0x0256b279d973c8d687264ac3eb36be09232d4474", "MYST Token"),
    ("0x800bdce6caa3fe2bfdb738383321278536e258f8", "wTHT Token"),
    ("0x8e453683b58c4f62da7066e00dbe709d2b33f76f", "LabNinety1 Team"),
    ("0xf8125adc6b0405c274d0236e609fea120074926f", "Havoc Billiards"),
    ("0xfdb3d70d513d9fdbca4518455955409b11224f99", "Havoc Arena Treasury"),
    ("0x5c974f501e599889c29503aeaea01a13ed231fbd", "Fate Gatekeeper Treasury"),
    ("0x6d4a024f322d30afe305a3111c1053e3040da6ea", "Fate Warchest"),
    ("0xd31cfa160354752727f800e3a468a5d851327167", "FATE(v1)/FLD Liquidity Mgr"),
    ("0xaa2e00e33d101542ddeeb27da8ebb13ae94c5632", "FATE/FLD Liquidity Mgr"),
    ("0xf1840b4ae6dcc58e8dbe514510ffe7737b9acb47", "FLD/AVAX LP (TraderJoe)"),
    ("0xf129618253bcff0f9a597e8103d2be065d17a310", "EVB/FLD LP (TraderJoe)"),
    ("0x0dbcb787458fa66ba71b1b808008fee43edac252", "FLD/AVAX LP (VaporDEX)"),
    ("0x437705f77b5536dade2b3425475b72a0af5f1fe7", "FLD/USDC LP (VaporDEX)"),
    ("0xe8ef9cc2f20205c5a243efc957a47865e53bfcad", "VAPE/FLD LP (VaporDEX)"),
    ("0x7c89dc798d832fe979da9bdf2b2eed593f7e5a5b", "wTHT/FLD LP (VaporDEX)"),
    ("0x6904885d59d891cbc5653092ab011d5e324f5c5c", "FLD/ARENA LP (VaporDEX)"),
    ("0x3770ee1844d6ec809ad66e060518b18ba07f9ca4", "MYST/FLD LP (VaporDEX)"),
    ("0xcf55499e13bf758ddb9d40883c1e123ce18c2888", "FATE/FLD LP (VaporDEX)"),
    ("0x9088b3ae8428e6666b8b82f8079cc74df27e7793", "HIGHER/FLD LP (VaporDEX)"),
    ("0xa8655fd2afb1adcd37aa8b9b13818471637bb782", "FATE(v1)/FLD LP (VaporDEX)") ]

/-- `isDexRouter`. -/
def isDexRouter (addr : String) : Bool :=
  DEX_ROUTER_ADDRS.contains (lowerStr addr)

/-- `isBurnAddress`. -/
def isBurnAddress (addr : String) : Bool :=
  BURN_ADDRESSES.contains (lowerStr addr)

/-- `getDexName`. -/
def getDexName (addr : String) : String :=
  (KNOWN_CONTRACTS.lookup (lowerStr addr)).getD "Unknown DEX"

/-- Render an integer with one digit after the decimal point
(model of `toFixed(1)`, display only). -/
def fixed1 (q : ℚ) : String :=
  let m : ℤ := ⌊q * 10 + 1 / 2⌋
  toString (m / 10) ++ "." ++ toString ((m % 10).natAbs)

/-- Render a number with at most two digits after the decimal point
(model of `toLocaleString(undefined, { maximumFractionDigits: 2 })`;
display only, locale grouping is not modeled). -/
def locale2 : JNum → String
  | none => "NaN"
  | some q =>
    if q.den = 1 then toString q.num
    else
      let m : ℤ := ⌊q * 100 + 1 / 2⌋
      let frac := (m % 100).natAbs
      if frac % 10 = 0 then toString (m / 100) ++ "." ++ toString (frac / 10)
      else toString (m / 100) ++ "." ++ toString frac

/-- `fmt`: human-readable amount (`1.2M` / `3.4K` / locale rendering). -/
def fmt (n : JNum) : String :=
  if jsGe n (some 1000000) then
    (match jsDiv n (some 1000000) with
     | some q => fixed1 q
     | none => "NaN") ++ "M"
  else if jsGe n (some 1000) then
    (match jsDiv n (some 1000) with
     | some q => fixed1 q
     | none => "NaN") ++ "K"
  else locale2 n

/-- `fmtDate`: display-only model of
`new Date(ts * 1000).toLocaleDateString('en-US', ...)`; the engine only
ever embeds the result in explanatory strings, so the civil-calendar
rendering is modeled by a deterministic opaque rendering of the
timestamp. -/
def fmtDate (ts : ℤ) : String :=
  "day " ++ toString ts

/-! ### Token origin tracing -/

/-- Decimal-adjusted value of a transfer:
`parseFloat(tx.value) / Math.pow(10, decimals)`. -/
def valOf (decimals : ℤ) (tx : TransferTx) : JNum :=
  jsDiv (parseFloat tx.value) (some ((10 : ℚ) ^ decimals))

/-- Transfers whose destination is the given (lower-cased) address. -/
def incomingOf (transfers : List TransferTx) (addr : String) : List TransferTx :=
  transfers.filter (fun tx => (lowerStr tx.to_) == addr)

/-- Accumulator of `traceTokenOrigin`'s single pass over the incoming
transfers. -/
structure OriginSums where
  fromTarget : JNum
  fromDex : JNum
  fromThirdParty : JNum
  largestSource : String
  largestAmount : JNum
  largestTs : Option ℤ
deriving DecidableEq, Repr

/-- One step of the origin-bucketing loop. -/
def originStep (target : String) (contractSet : List String) (decimals : ℤ)
    (acc : OriginSums) (tx : TransferTx) : OriginSums :=
  let from_ := (lowerStr tx.from_)
  let value := valOf decimals tx
  let acc :=
    if from_ == target then { acc with fromTarget := jsAdd acc.fromTarget value }
    else if contractSet.contains from_ then { acc with fromDex := jsAdd acc.fromDex value }
    else { acc with fromThirdParty := jsAdd acc.fromThirdParty value }
  if jsGt value acc.largestAmount then
    { acc with
      largestAmount := value
      largestSource := from_
      largestTs := parseIntJS tx.timeStamp }
  else acc

/-- Bucketed incoming sums for one wallet. -/
def originSumsOf (walletAddr target : String) (transfers : List TransferTx)
    (contractSet : List String) (decimals : ℤ) : OriginSums :=
  (incomingOf transfers (lowerStr walletAddr)).foldl (originStep target contractSet decimals)
    { fromTarget := some 0
      fromDex := some 0
      fromThirdParty := some 0
      largestSource := ""
      largestAmount := some 0
      largestTs := some 0 }

/-- Total incoming volume used by the tracer's share computation. -/
def originTotalOf (walletAddr target : String) (transfers : List TransferTx)
    (contractSet : List String) (decimals : ℤ) : JNum :=
  let s := originSumsOf walletAddr target transfers contractSet decimals
  jsAdd (jsAdd s.fromTarget s.fromDex) s.fromThirdParty

/-- `traceTokenOrigin`: classify where a wallet's tokens came from. -/
def traceTokenOrigin (walletAddr target : String) (transfers : List TransferTx)
    (contractSet : List String) (decimals : ℤ) : TokenOrigin × String :=
  let addr := (lowerStr walletAddr)
  let incoming := incomingOf transfers addr
  if incoming.isEmpty then
    (TokenOrigin.unknown, "No incoming transfers found in scan data")
  else
    let s := originSumsOf walletAddr target transfers contractSet decimals
    let total := jsAdd (jsAdd s.fromTarget s.fromDex) s.fromThirdParty
    if jsEq total (some 0) then (TokenOrigin.unknown, "Zero-value transfers only")
    else
      let targetPct := jsDiv s.fromTarget total
      let dexPct := jsDiv s.fromDex total
      let thirdPct := jsDiv s.fromThirdParty total
      if jsGe targetPct (some (7 / 10)) then
        let details := "Received " ++ fmt s.fromTarget ++ " directly from target"
        let details :=
          if ziGt s.largestTs (some 0) then
            details ++ " (largest: " ++ fmt s.largestAmount ++ " on " ++
              (match s.largestTs with
               | some ts => fmtDate ts
               | none => "Invalid Date") ++ ")"
          else details
        (TokenOrigin.fromTarget, details)
      else if jsGe dexPct (some (7 / 10)) then
        (TokenOrigin.fromDex,
          "Acquired " ++ fmt s.fromDex ++ " from DEX/contracts — likely independent buyer")
      else if jsGe thirdPct (some (7 / 10)) then
        let thirdPartyConnected := transfers.any (fun tx =>
          ((lowerStr tx.from_) == s.largestSource && (lowerStr tx.to_) == target) ||
          ((lowerStr tx.to_) == s.largestSource && (lowerStr tx.from_) == target))
        if thirdPartyConnected then
          (TokenOrigin.fromThirdParty,
            "Received from " ++ abbr s.largestSource ++
              " (also connected to target) — intermediary pattern")
        else
          (TokenOrigin.fromThirdParty, "Received from third-party " ++ abbr s.largestSource)
      else
        let parts : List String :=
          (if jsGt s.fromTarget (some 0) then [fmt s.fromTarget ++ " from target"] else []) ++
          (if jsGt s.fromDex (some 0) then [fmt s.fromDex ++ " from DEX"] else []) ++
          (if jsGt s.fromThirdParty (some 0) then [fmt s.fromThirdParty ++ " from other wallets"] else [])
        (TokenOrigin.mixed, "Mixed sources: " ++ joinSep ", " parts)

/-! ### Wallet history reconstruction -/

/-- Sort key used by every transfer sort:
`(a, b) => parseInt(a.timeStamp) - parseInt(b.timeStamp)`.
`txLe a b` is "the comparator does not order `a` strictly after `b`"
(a NaN comparator result is treated as equality, keeping the original
order, which is the behavior of the major engines). -/
def txLe (a b : TransferTx) : Bool :=
  match parseIntJS a.timeStamp, parseIntJS b.timeStamp with
  | some x, some y => decide (x ≤ y)
  | _, _ => true

/-- Percentage of a bucket relative to a total:
`totalOut > 0 ? (amount / totalOut) * 100 : 0`. -/
def pctOf (amount totalOut : JNum) : JNum :=
  if jsGt totalOut (some 0) then jsMul (jsDiv amount totalOut) (some 100) else some 0

/-- State threaded through the chronological replay loop of
`reconstructWalletHistory`. -/
structure ReplayState where
  runningBalance : JNum
  peakBalance : JNum
  peakDate : Option ℤ
  totalReceived : JNum
  totalSent : JNum
  soldOnDexAmount : JNum
  soldOnDexCount : ℕ
  dexNames : List String
  sentToWalletsAmount : JNum
  recipientMap : List (String × JNum)
  burnedAmount : JNum
deriving DecidableEq, Repr

/-- Initial replay state (`sentToContractsAmount` is a `const 0` in the
source and never threaded). -/
def initReplayState : ReplayState :=
  { runningBalance := some 0
    peakBalance := some 0
    peakDate := some 0
    totalReceived := some 0
    totalSent := some 0
    soldOnDexAmount := some 0
    soldOnDexCount := 0
    dexNames := []
    sentToWalletsAmount := some 0
    recipientMap := []
    burnedAmount := some 0 }

/-- One iteration of the replay loop over the wallet's chronological
transfers. -/
def replayStep (addr : String) (decimals : ℤ) (contractSet : List String)
    (st : ReplayState) (tx : TransferTx) : ReplayState :=
  let to_ := (lowerStr tx.to_)
  let value := valOf decimals tx
  let ts := parseIntJS tx.timeStamp
  let st :=
    if to_ == addr then
      { st with
        runningBalance := jsAdd st.runningBalance value
        totalReceived := jsAdd st.totalReceived value }
    else
      let st :=
        { st with
          runningBalance := jsSub st.runningBalance value
          totalSent := jsAdd st.totalSent value }
      if isBurnAddress to_ then
        { st with burnedAmount := jsAdd st.burnedAmount value }
      else if isDexRouter to_ || contractSet.contains to_ then
        { st with
          soldOnDexAmount := jsAdd st.soldOnDexAmount value
          soldOnDexCount := st.soldOnDexCount + 1
          dexNames :=
            insertIfAbsent st.dexNames
              (if isDexRouter to_ then getDexName to_
               else (KNOWN_CONTRACTS.lookup to_).getD "DEX/Contract") }
      else
        { st with
          sentToWalletsAmount := jsAdd st.sentToWalletsAmount value
          recipientMap :=
            alSet st.recipientMap to_
              (jsAdd (jsOrZero ((st.recipientMap.lookup to_).getD (some 0))) value) }
  let st :=
    if jsLt st.runningBalance (some 0) then { st with runningBalance := some 0 } else st
  if jsGt st.runningBalance st.peakBalance then
    { st with peakBalance := st.runningBalance, peakDate := ts }
  else st

/-- Comparator order for ranking map entries descending by value
(`(a, b) => b[1] - a[1]`). -/
def descValLe (a b : String × JNum) : Bool :=
  !(jsGt (jsSub b.2 a.2) (some 0))

/-- Second-hop analysis of one top recipient of a wallet. -/
def buildRecipientDisposition (transfers : List TransferTx) (decimals : ℤ)
    (contractSet : List String) (balances : List (String × ℚ))
    (entry : String × JNum) : RecipientDisposition :=
  let recipAddr := entry.1
  let amount := entry.2
  let recipBalance := (balances.lookup recipAddr).getD 0
  let recipOutbound := transfers.filter (fun tx => (lowerStr tx.from_) == recipAddr)
  let sums := recipOutbound.foldl (fun (acc : JNum × JNum) tx =>
    let dest := (lowerStr tx.to_)
    let val := valOf decimals tx
    if isDexRouter dest || (contractSet.contains dest && !isBurnAddress dest) then
      (jsAdd acc.1 val, acc.2)
    else if !isBurnAddress dest then
      (acc.1, jsAdd acc.2 val)
    else acc) (some 0, some 0)
  let recipSoldOnDex := sums.1
  let recipPassedAlong := sums.2
  let status : RecipientStatus :=
    if jsGt (some recipBalance) (jsMul amount (some (1 / 2))) then RecipientStatus.holding
    else if jsGt recipSoldOnDex (jsMul amount (some (1 / 2))) then RecipientStatus.sold
    else if jsGt recipPassedAlong (jsMul amount (some (1 / 2))) then RecipientStatus.passedAlong
    else if jsGt recipSoldOnDex (some 0) || jsGt recipPassedAlong (some 0) then
      RecipientStatus.mixed
    else RecipientStatus.holding
  { address := recipAddr
    amountReceived := amount
    currentBalance := recipBalance
    soldFromHere := recipSoldOnDex
    passedAlong := recipPassedAlong
    stillHolding := recipBalance
    status := status }

/-- The transfers touching a wallet, in chronological replay order. -/
def walletTxsOf (wallet : String) (transfers : List TransferTx) : List TransferTx :=
  stableSort txLe
    (transfers.filter (fun tx =>
      (lowerStr tx.from_) == (lowerStr wallet) || (lowerStr tx.to_) == (lowerStr wallet)))

/-- The replay-loop result for one wallet. -/
def replayStateOf (wallet : String) (transfers : List TransferTx) (d : ℤ)
    (cs : List String) : ReplayState :=
  (walletTxsOf wallet transfers).foldl (replayStep (lowerStr wallet) d cs) initReplayState

/-- The second-hop recipient dispositions of one wallet's top 10
recipients. -/
def recipientsOf (wallet : String) (transfers : List TransferTx) (d : ℤ)
    (cs : List String) (bal : List (String × ℚ)) : List RecipientDisposition :=
  ((stableSort descValLe (replayStateOf wallet transfers d cs).recipientMap).take 10).map
    (buildRecipientDisposition transfers d cs bal)

/-- `reconstructWalletHistory`: replay one wallet's chronological transfer
list into a balance trajectory and a disposition breakdown. -/
def reconstructWalletHistory (wallet : String) (transfers : List TransferTx)
    (tokenDecimals : ℤ) (contractSet : List String)
    (balances : List (String × ℚ)) : WalletHistory :=
  let addr := (lowerStr wallet)
  let currentBalance := (balances.lookup addr).getD 0
  let st := replayStateOf wallet transfers tokenDecimals contractSet
  let sentToContractsAmount : JNum := some 0
  let totalOut :=
    jsAdd (jsAdd (jsAdd st.soldOnDexAmount st.sentToWalletsAmount) sentToContractsAmount)
      st.burnedAmount
  let recipients := recipientsOf wallet transfers tokenDecimals contractSet balances
  { address := wallet
    currentBalance := currentBalance
    peakBalance := st.peakBalance
    peakDate := st.peakDate
    totalReceived := st.totalReceived
    totalSent := st.totalSent
    netDisposed := jsSub st.peakBalance (some currentBalance)
    disposition :=
      { soldOnDex :=
          { amount := st.soldOnDexAmount
            percentage := pctOf st.soldOnDexAmount totalOut
            txCount := st.soldOnDexCount
            dexes := st.dexNames }
        sentToWallets :=
          { amount := st.sentToWalletsAmount
            percentage := pctOf st.sentToWalletsAmount totalOut
            recipients := recipients }
        sentToContracts :=
          { amount := sentToContractsAmount
            percentage := pctOf sentToContractsAmount totalOut }
        burnedOrLost :=
          { amount := st.burnedAmount
            percentage := pctOf st.burnedAmount totalOut }
        addedToLP := { amount := some 0, pairs := [], stillActive := false } }
    isGhost :=
      jsGt st.peakBalance (some 0) &&
        jsLe (some currentBalance) (jsMul st.peakBalance (some (1 / 100))) }

/-! ### Outbound summary -/

/-- Accumulator of `buildOutboundSummary`'s pass over the transfer list. -/
structure OutboundAcc where
  toDexAmount : JNum
  toDexCount : ℕ
  toWalletAmount : JNum
  toWalletCount : ℕ
  recipientAmounts : List (String × JNum)
deriving DecidableEq, Repr

/-- `buildOutboundSummary`: aggregate the target's own outgoing transfers
into DEX/wallet/contract buckets with top recipients. -/
def buildOutboundSummary (transfers : List TransferTx) (targetWallet : String)
    (contractSet : List String) (decimals : ℤ)
    (balances : List (String × ℚ)) : OutboundSummary :=
  let target := (lowerStr targetWallet)
  let acc := transfers.foldl (fun (acc : OutboundAcc) tx =>
    if (lowerStr tx.from_) != target then acc
    else
      let to_ := (lowerStr tx.to_)
      let value := valOf decimals tx
      if contractSet.contains to_ then
        { acc with toDexAmount := jsAdd acc.toDexAmount value, toDexCount := acc.toDexCount + 1 }
      else
        { acc with
          toWalletAmount := jsAdd acc.toWalletAmount value
          toWalletCount := acc.toWalletCount + 1
          recipientAmounts :=
            alSet acc.recipientAmounts to_
              (jsAdd (jsOrZero ((acc.recipientAmounts.lookup to_).getD (some 0))) value) })
    { toDexAmount := some 0
      toDexCount := 0
      toWalletAmount := some 0
      toWalletCount := 0
      recipientAmounts := [] }
  let toContractAmount : JNum := some 0
  let toContractCount : ℕ := 0
  let totalOut := jsAdd (jsAdd acc.toDexAmount acc.toWalletAmount) toContractAmount
  let topRecipients :=
    ((stableSort descValLe acc.recipientAmounts).take 10).map fun e =>
      { address := e.1
        amount := e.2
        stillHolding := (balances.lookup e.1).getD 0 : TopRecipient }
  { toDex :=
      { amount := acc.toDexAmount
        percentage := pctOf acc.toDexAmount totalOut
        txCount := acc.toDexCount }
    toWallets :=
      { amount := acc.toWalletAmount
        percentage := pctOf acc.toWalletAmount totalOut
        txCount := acc.toWalletCount }
    toContracts :=
      { amount := toContractAmount
        percentage := pctOf toContractAmount totalOut
        txCount := toContractCount }
    topRecipients := topRecipients }

/-! ### Scoring helpers -/

/-- `detectSequentialSends`: group the target's consecutive sends to
distinct recipients that are less than 120 seconds apart. -/
def detectSequentialSends (sortedTargetSentTxs : List TransferTx) (target : String) :
    List (List String) :=
  let st := sortedTargetSentTxs.foldl
    (fun (st : List (List String) × List String × Option ℤ) tx =>
      let (groups, currentGroup, lastTs) := st
      let to_ := (lowerStr tx.to_)
      let ts := parseIntJS tx.timeStamp
      if to_ == target then st
      else if ziGt lastTs (some 0) && ziLt (ziSub ts lastTs) (some 120) then
        (groups, if currentGroup.contains to_ then currentGroup else currentGroup ++ [to_], ts)
      else
        ((if currentGroup.length ≥ 2 then groups ++ [currentGroup] else groups), [to_], ts))
    ([], [], some 0)
  if st.2.1.length ≥ 2 then st.1 ++ [st.2.1] else st.1

/-- `checkTimingCorrelation`: count adjacent opposite-direction pairs less
than 300 seconds apart among a wallet's transfers with the target. -/
def checkTimingCorrelation (peerTxs : List TransferTx) (target : String) : ℤ :=
  if peerTxs.length < 2 then 0
  else
    let sorted := stableSort txLe peerTxs
    let rapidPairs := (sorted.zip sorted.tail).foldl
      (fun (n : ℕ) (pair : TransferTx × TransferTx) =>
        let (prev, curr) := pair
        let diff := ziSub (parseIntJS curr.timeStamp) (parseIntJS prev.timeStamp)
        let prevSent := (lowerStr prev.from_) == target
        let currSent := (lowerStr curr.from_) == target
        if ziLt diff (some 300) && prevSent != currSent then n + 1 else n) 0
    if rapidPairs ≥ 3 then 15 else if rapidPairs ≥ 2 then 10 else if rapidPairs ≥ 1 then 5 else 0

/-- `checkOtherActivity`: does the wallet touch any third address? -/
def checkOtherActivity (walletAddr target : String) (transfers : List TransferTx) : Bool :=
  let addr := (lowerStr walletAddr)
  transfers.any (fun tx =>
    ((lowerStr tx.from_) == addr && (lowerStr tx.to_) != target) ||
    ((lowerStr tx.to_) == addr && (lowerStr tx.from_) != target))

/-! ### The scoring pipeline of `analyzeHoldings` -/

/-- Token decimals from the first transfer:
`transfers.length > 0 ? parseInt(transfers[0].tokenDecimal, 10) || 18 : 18`
(`|| 18` replaces both `NaN` and `0`). -/
def decimalsOf (transfers : List TransferTx) : ℤ :=
  match transfers with
  | [] => 18
  | tx :: _ =>
    match parseIntJS tx.tokenDecimal with
    | none => 18
    | some d => if d = 0 then 18 else d

/-- Per-peer transfer list (`walletTransfers.get(addr) || []`). -/
def peerTxsOf (transfers : List TransferTx) (target addr : String) : List TransferTx :=
  transfers.filter (fun tx =>
    let f := (lowerStr tx.from_)
    let t := (lowerStr tx.to_)
    (f == target || t == target) && (if f == target then t else f) == addr)

/-- `sentToMap.get(addr)`: the last link from the target to `addr`. -/
def sentLinkOf (links : List GraphLink) (target addr : String) : Option GraphLink :=
  links.foldl (fun acc l => if l.source == target && l.target == addr then some l else acc) none

/-- `recvFromMap.get(addr)`: the last link from `addr` to the target. -/
def recvLinkOf (links : List GraphLink) (target addr : String) : Option GraphLink :=
  links.foldl (fun acc l => if l.target == target && l.source == addr then some l else acc) none

/-- The target's outgoing transfers, chronologically sorted. -/
def targetSentTxsOf (transfers : List TransferTx) (target : String) : List TransferTx :=
  stableSort txLe (transfers.filter (fun tx => (lowerStr tx.from_) == target))

/-- Members of all sequential-dispersal groups. -/
def sequentialWalletsOf (transfers : List TransferTx) (target : String) : List String :=
  (detectSequentialSends (targetSentTxsOf transfers target) target).foldl
    (fun s g => g.foldl insertIfAbsent s) []

/-- Funder → funded-wallets clusters, in first-seen funder order. -/
def fundingClustersOf (fundingSources : List (String × String)) : List (String × List String) :=
  fundingSources.foldl (fun m p =>
    let funderLower := (lowerStr p.2)
    match m.lookup funderLower with
    | some cluster => alSet m funderLower (cluster ++ [(lowerStr p.1)])
    | none => alSet m funderLower [(lowerStr p.1)]) []

/-- Non-contract, non-target wallet nodes. -/
def walletNodesOf (nodes : List GraphNode) : List GraphNode :=
  nodes.filter (fun n => !n.isContract && !n.isTarget)

/-- All wallet histories, one per wallet node. -/
def walletHistoriesOf (s : ScanResult) : List WalletHistory :=
  (walletNodesOf s.nodes).map (fun n =>
    reconstructWalletHistory n.id s.transfers (decimalsOf s.transfers) s.detectedContracts
      s.balances)

/-- The `walletHistoryMap` populated alongside `walletHistories`. -/
def walletHistoryAListOf (s : ScanResult) : List (String × WalletHistory) :=
  (walletNodesOf s.nodes).foldl (fun m n =>
    alSet m n.id
      (reconstructWalletHistory n.id s.transfers (decimalsOf s.transfers) s.detectedContracts
        s.balances)) []

/-- Ghost wallets among the reconstructed histories. -/
def ghostWalletsOf (s : ScanResult) : List WalletHistory :=
  (walletHistoriesOf s).filter (·.isGhost)

/-- One iteration of the pass-through detection loop over the ghost
wallets. -/
def passThroughStep (acc : List String × List (String × String))
    (ghost : WalletHistory) : List String × List (String × String) :=
  let addr := (lowerStr ghost.address)
  let recips := ghost.disposition.sentToWallets.recipients
  match recips.head? with
  | none => acc
  | some topRecip =>
    let totalSentToWallets := ghost.disposition.sentToWallets.amount
    if jsGt totalSentToWallets (some 0) &&
        jsGt (jsDiv topRecip.amountReceived totalSentToWallets) (some (7 / 10)) then
      if jsGt (some topRecip.currentBalance) (jsMul topRecip.amountReceived (some (3 / 10))) then
        (insertIfAbsent acc.1 addr, alSet acc.2 addr topRecip.address)
      else acc
    else acc

/-- Pass-through detection: the set of pass-through ghosts together with the
`ghost → final holder` map. -/
def passThroughOf (s : ScanResult) : List String × List (String × String) :=
  (ghostWalletsOf s).foldl passThroughStep ([], [])

/-- First/last interaction timestamps of a wallet with the target
(`Infinity` start modeled by `none`, normalized to `0` at the end). -/
def interactionBounds (peerTxs : List TransferTx) : ℤ × ℤ :=
  let st := peerTxs.foldl (fun (acc : Option ℤ × ℤ) tx =>
    match parseIntJS tx.timeStamp with
    | none => acc
    | some ts =>
      ((match acc.1 with
        | none => some ts
        | some f => if ts < f then some ts else some f),
       if acc.2 < ts then ts else acc.2)) (none, 0)
  (st.1.getD 0, st.2)

/-- Confidence tier derived from a score
(`score >= 60 ? 'high' : score >= 35 ? 'medium' : 'low'`). -/
def tierOfScore (score : ℤ) : Confidence :=
  if 60 ≤ score then Confidence.high
  else if 35 ≤ score then Confidence.medium
  else Confidence.low

/-- The per-wallet heuristic scorer: one `WalletScore` per wallet node,
mirroring heuristics 1–9 of the final analyzer in order. -/
def scoreWalletOf (s : ScanResult) (target : String) (fundingSources : List (String × String))
    (node : GraphNode) : WalletScore :=
  let addr := node.id
  let transfers := s.transfers
  let contractSet := s.detectedContracts
  let decimals := decimalsOf transfers
  let peerTxs := peerTxsOf transfers target addr
  let sentLink := sentLinkOf s.links target addr
  let recvLink := recvLinkOf s.links target addr
  let history := (walletHistoryAListOf s).lookup addr
  let bounds := interactionBounds peerTxs
  let transfersWithTarget := peerTxs.length
  let sentToTarget := (recvLink.map (·.value)).getD 0
  let recvFromTarget := (sentLink.map (·.value)).getD 0
  let netFlowFromTarget := recvFromTarget - sentToTarget
  let origin := traceTokenOrigin addr target transfers contractSet decimals
  -- Heuristic 1: bidirectional transfers (+30)
  let acc : ℤ × List String := (0, [])
  let acc :=
    if sentLink.isSome && recvLink.isSome then
      (acc.1 + 30, acc.2 ++ ["Bidirectional transfers with target"])
    else acc
  -- Heuristic 2: shared funding source (+25)
  let walletFundingSource := fundingSources.lookup addr
  let targetFundingSource := fundingSources.lookup target
  let acc :=
    match walletFundingSource, targetFundingSource with
    | some wfs, some tfs =>
      if (lowerStr wfs) == (lowerStr tfs) then
        (acc.1 + 25, acc.2 ++ ["Shared funding source: " ++ abbr wfs])
      else acc
    | _, _ => acc
  -- Heuristic 3: shared funder cluster (+20 unless heuristic 2 fired)
  let acc :=
    match walletFundingSource with
    | some wfs =>
      match (fundingClustersOf fundingSources).lookup (lowerStr wfs) with
      | some cluster =>
        if cluster.length ≥ 2 && !(acc.2.any (fun r => hasSubstr r "Shared funding")) then
          (acc.1 + 20,
            acc.2 ++ ["Shared gas funder with " ++ toString (cluster.length - 1) ++
              " other wallet(s)"])
        else acc
      | none => acc
    | none => acc
  -- Heuristic 4: timing correlation (+5/+10/+15)
  let timingScore := checkTimingCorrelation peerTxs target
  let acc :=
    if 0 < timingScore then
      (acc.1 + timingScore, acc.2 ++ ["Rapid transfer timing (< 5 min windows)"])
    else acc
  -- Heuristic 5: sequential send pattern (+10)
  let acc :=
    if (sequentialWalletsOf transfers target).contains addr then
      (acc.1 + 10, acc.2 ++ ["Sequential send pattern from target"])
    else acc
  -- Heuristic 6: received-then-held (+10)
  let acc :=
    if sentLink.isSome &&
        (match node.balance with
         | some b => decide (0 < b)
         | none => false) then
      (acc.1 + 10, acc.2 ++ ["Received tokens and still holding"])
    else acc
  -- Heuristic 7: isolated activity (+10)
  let hasOtherActivity := checkOtherActivity addr target transfers
  let acc :=
    if !hasOtherActivity && 0 < transfersWithTarget then
      (acc.1 + 10, acc.2 ++ ["No token activity with anyone else"])
    else acc
  -- Heuristic 8: token-origin bonus/penalty (+20 / −30 / +15)
  let acc :=
    if origin.1 = TokenOrigin.fromTarget &&
        (match node.balance with
         | some b => decide (0 < b)
         | none => false) then
      (acc.1 + 20, acc.2 ++ ["Tokens received directly from target and held"])
    else if origin.1 = TokenOrigin.fromDex then
      (acc.1 - 30, acc.2 ++ ["Tokens acquired from DEX — likely independent buyer"])
    else if origin.1 = TokenOrigin.fromThirdParty then
      let thirdPartyConnected := transfers.any (fun tx =>
        ((lowerStr tx.from_) == addr || (lowerStr tx.to_) == addr) &&
        transfers.any (fun tx2 =>
          tx2.hash != tx.hash &&
          ((lowerStr tx2.from_) == target || (lowerStr tx2.to_) == target)))
      if thirdPartyConnected then
        (acc.1 + 15, acc.2 ++ ["Received via intermediary connected to target"])
      else acc
    else acc
  -- Heuristic 9: pass-through pattern (+20)
  let pt := passThroughOf s
  let acc :=
    if pt.1.contains addr then
      let finalHolder := pt.2.lookup addr
      (acc.1 + 20,
        acc.2 ++ ["Pass-through: moved all tokens to " ++
          (match finalHolder with
           | some h => abbr h
           | none => "holder") ++ " (still holding)"])
    else acc
  -- Heuristic 10: sell-off penalty (−15) with wash-sale exception
  let acc :=
    match history with
    | some h =>
      if jsGt h.totalSent (some 0) then
        if jsGe (jsDiv h.disposition.soldOnDex.amount h.totalSent) (some (9 / 10)) then
          let hasSameFunder :=
            match walletFundingSource, targetFundingSource with
            | some wfs, some tfs => (lowerStr wfs) == (lowerStr tfs)
            | _, _ => false
          if !hasSameFunder then
            (acc.1 - 15, acc.2 ++ ["Sold 90%+ on DEX — likely not same owner"])
          else
            (acc.1, acc.2 ++ ["Sold 90%+ on DEX but shares funding source — possible wash sale"])
        else acc
      else acc
    | none => acc
  { address := node.address
    score := acc.1
    reasons := acc.2
    fundingSource := walletFundingSource
    firstInteraction := bounds.1
    lastInteraction := bounds.2
    transfersWithTarget := transfersWithTarget
    netFlowFromTarget := netFlowFromTarget
    balance := node.balance.getD 0
    tokenOrigin := origin.1
    tokenOriginDetails := origin.2 }

/-- Scores of all wallet nodes, keeping only those with score ≥ 15
(the admission threshold), in node order. -/
def walletScoresOf (s : ScanResult) (target : String)
    (fundingSources : List (String × String)) : List WalletScore :=
  (walletNodesOf s.nodes).filterMap (fun node =>
    let sc := scoreWalletOf s target fundingSources node
    if 15 ≤ sc.score then some sc else none)

/-- Comparator order for the descending score sort
(`(a, b) => b.score - a.score`). -/
def scoreDescLe (a b : WalletScore) : Bool :=
  decide (b.score ≤ a.score)

/-- Admitted scores sorted descending by score. -/
def sortedScoresOf (s : ScanResult) (target : String)
    (fundingSources : List (String × String)) : List WalletScore :=
  stableSort scoreDescLe (walletScoresOf s target fundingSources)

/-- Conversion of a `WalletScore` to the public `HiddenHoldingWallet`. -/
def toHiddenOf (s : ScanResult) (sc : WalletScore) : HiddenHoldingWallet :=
  let addr := (lowerStr sc.address)
  let nodeForAddr := s.nodes.find? (fun n => n.id == addr)
  let lpBal := (nodeForAddr.bind (·.lpBalance)).getD 0
  let stakedBal := (nodeForAddr.bind (·.stakedBalance)).getD 0
  { address := sc.address
    balance := sc.balance
    confidence := tierOfScore sc.score
    reasons := sc.reasons
    fundingSource := sc.fundingSource
    firstInteraction := sc.firstInteraction
    lastInteraction := sc.lastInteraction
    transfersWithTarget := sc.transfersWithTarget
    netFlowFromTarget := sc.netFlowFromTarget
    tokenOrigin := sc.tokenOrigin
    tokenOriginDetails := sc.tokenOriginDetails
    lpBalance := lpBal
    stakedBalance := stakedBal
    totalHoldings := sc.balance + lpBal + stakedBal }

/-- The report wallet list before the pass-through confidence override. -/
def preOverrideWalletsOf (s : ScanResult) (target : String)
    (fundingSources : List (String × String)) : List HiddenHoldingWallet :=
  (sortedScoresOf s target fundingSources).map (toHiddenOf s)

/-- One iteration of the in-place pass-through confidence-override loop:
the wallet at index `i` inherits its final holder's tier when that holder
is currently HIGH or MEDIUM. -/
def overrideStep (ptW : List String) (ptT : List (String × String))
    (ws : List HiddenHoldingWallet) (i : ℕ) : List HiddenHoldingWallet :=
  match ws[i]? with
  | none => ws
  | some w =>
    let addr := (lowerStr w.address)
    if ptW.contains addr then
      match ptT.lookup addr with
      | none => ws
      | some finalAddr =>
        match ws.find? (fun fw => (lowerStr fw.address) == finalAddr) with
        | none => ws
        | some finalWallet =>
          if finalWallet.confidence = Confidence.high ∨
              finalWallet.confidence = Confidence.medium then
            ws.set i { w with confidence := finalWallet.confidence }
          else ws
    else ws

/-- The pass-through confidence-override pass over the wallet list. -/
def applyOverride (ptW : List String) (ptT : List (String × String))
    (ws : List HiddenHoldingWallet) : List HiddenHoldingWallet :=
  (List.range ws.length).foldl (overrideStep ptW ptT) ws

/-- The final report wallet list. -/
def walletsOf (s : ScanResult) (target : String)
    (fundingSources : List (String × String)) : List HiddenHoldingWallet :=
  applyOverride (passThroughOf s).1 (passThroughOf s).2
    (preOverrideWalletsOf s target fundingSources)

/-! ### Risk flags and narrative summary -/

/-- `toFixed(1)` applied to a possibly-NaN percentage. -/
def jnFixed1 : JNum → String
  | some q => fixed1 q
  | none => "NaN"

/-- `generateRiskFlags`.  The source reads the wall clock
(`Math.floor(Date.now() / 1000)`) for the trailing-7-days dispersal flag;
that hidden input is made explicit here as `nowSec`. -/
def generateRiskFlags (wallets : List HiddenHoldingWallet)
    (targetSentTxs : List TransferTx) (sequentialGroups : List (List String))
    (fundingClusters : List (String × List String)) (tokenSymbol : String)
    (ghostWallets : List WalletHistory) (passThroughWallets : List String)
    (nowSec : ℤ) : List String :=
  let flags : List String := []
  let flags := flags ++
    (match sequentialGroups.find? (fun g => g.length ≥ 2) with
     | some g =>
       ["Wallet splitting detected: " ++ toString g.length ++
         " wallets received tokens in sequential transactions"]
     | none => [])
  let bidirWallets := wallets.filter (fun w => w.reasons.any (fun r => hasSubstr r "Bidirectional"))
  let flags := flags ++
    (if bidirWallets.length > 0 then
      let totalBidirVol : ℚ := bidirWallets.foldl (fun acc w => acc + |w.netFlowFromTarget|) 0
      ["Possible wash trading: bidirectional transfers totaling " ++ fmt (some totalBidirVol) ++
        " " ++ tokenSymbol]
     else [])
  let coldWallets := wallets.filter (fun w =>
    decide (0 < w.balance) && w.reasons.any (fun r => hasSubstr r "still holding"))
  let flags := flags ++
    (if coldWallets.length > 0 then
      ["Cold storage pattern: " ++ toString coldWallets.length ++
        " wallet(s) received tokens and never moved them"]
     else [])
  let flags := flags ++
    (match fundingClusters.find? (fun e => e.2.length ≥ 2) with
     | some e =>
       ["Shared funding source: " ++ toString e.2.length ++ " wallets funded by " ++ abbr e.1]
     | none => [])
  let dexBuyers := wallets.filter (fun w => w.tokenOrigin == TokenOrigin.fromDex)
  let flags := flags ++
    (if dexBuyers.length > 0 then
      let dexTotal : ℚ := dexBuyers.foldl (fun acc w => acc + w.balance) 0
      [toString dexBuyers.length ++ " wallet(s) acquired " ++ fmt (some dexTotal) ++ " " ++
        tokenSymbol ++ " from DEX — likely independent buyers"]
     else [])
  let flags := flags ++
    (if ghostWallets.length > 0 then
      let combinedPeak := ghostWallets.foldl (fun acc g => jsAdd acc g.peakBalance) (some 0)
      [toString ghostWallets.length ++ " ghost wallet(s) previously held " ++ fmt combinedPeak ++
        " " ++ tokenSymbol ++ " — now empty"]
     else [])
  let flags := flags ++
    (if passThroughWallets.length > 0 then
      [toString passThroughWallets.length ++
        " pass-through wallet(s) detected — tokens moved through intermediary to final holders"]
     else [])
  let lpHolders := wallets.filter (fun w => decide (0 < w.lpBalance))
  let flags := flags ++
    (if lpHolders.length > 0 then
      let totalLP : ℚ := lpHolders.foldl (fun acc w => acc + w.lpBalance) 0
      [toString lpHolders.length ++ " cluster wallet(s) hold " ++ fmt (some totalLP) ++ " " ++
        tokenSymbol ++ " in LP positions — hidden from simple balance checks"]
     else [])
  let stakedHolders := wallets.filter (fun w => decide (0 < w.stakedBalance))
  let flags := flags ++
    (if stakedHolders.length > 0 then
      let totalStaked : ℚ := stakedHolders.foldl (fun acc w => acc + w.stakedBalance) 0
      [toString stakedHolders.length ++ " cluster wallet(s) have " ++ fmt (some totalStaked) ++
        " " ++ tokenSymbol ++ " staked in farm contracts"]
     else [])
  let sevenDaysAgo : ℤ := nowSec - 7 * 24 * 60 * 60
  let recent := targetSentTxs.foldl (fun (acc : JNum × ℕ) tx =>
    if ziGt (parseIntJS tx.timeStamp) (some sevenDaysAgo) then
      (jsAdd acc.1 (jsDiv (parseFloat tx.value) (some (1000000000000000000 : ℚ))), acc.2 + 1)
    else acc) (some 0, 0)
  let flags := flags ++
    (if recent.2 ≥ 2 && jsGt recent.1 (some 0) then
      ["Recent dispersal: " ++ fmt recent.1 ++ " " ++ tokenSymbol ++ " distributed to " ++
        toString recent.2 ++ " wallets in last 7 days"]
     else [])
  flags

/-- `generateSummary`: the narrative cluster summary. -/
def generateSummary (targetBalance : ℚ) (targetHistory : WalletHistory)
    (highWallets medWallets lowWallets : List HiddenHoldingWallet)
    (confirmedHoldings suspectedHoldings : ℚ) (tokenSymbol : String)
    (outbound : OutboundSummary) (ghostWallets : List WalletHistory)
    (passThroughWallets : List String) (passThroughTargets : List (String × String))
    (balances : List (String × ℚ)) : String :=
  let parts : List String := ["COMPLETE TOKEN ACCOUNTING:"]
  let parts := parts ++
    ["INBOUND: Received " ++ fmt targetHistory.totalReceived ++ " " ++ tokenSymbol ++ " total."]
  let accumulator := jsGe targetHistory.totalReceived targetHistory.totalSent
  let parts := parts ++
    ["OUTBOUND: Sent " ++ fmt targetHistory.totalSent ++ " " ++ tokenSymbol ++ " total (" ++
      (if accumulator then "net accumulator" else "net distributor") ++ ": " ++
      (if accumulator then "+" else "") ++
      fmt (jsSub targetHistory.totalReceived targetHistory.totalSent) ++ " " ++ tokenSymbol ++
      ")."]
  let totalOut := jsAdd (jsAdd outbound.toDex.amount outbound.toWallets.amount)
    outbound.toContracts.amount
  let parts := parts ++
    (if jsGt totalOut (some 0) then
      ["DISPOSITION OF OUTBOUND " ++ fmt totalOut ++ " " ++ tokenSymbol ++ ":",
       "Sold on DEX: " ++ fmt outbound.toDex.amount ++ " " ++ tokenSymbol ++ " (" ++
         jnFixed1 outbound.toDex.percentage ++ "%).",
       "Sent to wallets: " ++ fmt outbound.toWallets.amount ++ " " ++ tokenSymbol ++ " (" ++
         jnFixed1 outbound.toWallets.percentage ++ "%)."] ++
      (let stillHeldByRecipients : ℚ :=
        outbound.topRecipients.foldl (fun acc r => acc + r.stillHolding) 0
       if 0 < stillHeldByRecipients then
        ["Still held by recipients: " ++ fmt (some stillHeldByRecipients) ++ " " ++
          tokenSymbol ++ "."]
       else [])
     else [])
  let parts := parts ++
    (if ghostWallets.length > 0 then
      let combinedPeak := ghostWallets.foldl (fun acc g => jsAdd acc g.peakBalance) (some 0)
      let ghostSold := ghostWallets.foldl
        (fun acc g => jsAdd acc g.disposition.soldOnDex.amount) (some 0)
      let ghostPassed := ghostWallets.foldl
        (fun acc g => jsAdd acc g.disposition.sentToWallets.amount) (some 0)
      ["GHOST WALLETS: " ++ toString ghostWallets.length ++ " wallet(s), combined peak " ++
        fmt combinedPeak ++ " " ++ tokenSymbol ++ " → sold " ++ fmt ghostSold ++ ", passed " ++
        fmt ghostPassed ++ " to holders."]
     else [])
  let parts := parts ++
    (if passThroughWallets.length > 0 then
      let ptList := passThroughTargets.filterMap (fun e =>
        let holderBal := (balances.lookup e.2).getD 0
        if 0 < holderBal then
          some (abbr e.1 ++ " → " ++ abbr e.2 ++ " (holds " ++ fmt (some holderBal) ++ ")")
        else none)
      if ptList.length > 0 then
        ["Pass-through chains: " ++ joinSep "; " (ptList.take 3) ++ "."]
      else []
     else [])
  let parts := parts ++
    (if highWallets.length > 0 then
      ["HIGH confidence: " ++ toString highWallets.length ++ " wallet(s) holding " ++
        fmt (some confirmedHoldings) ++ " " ++ tokenSymbol ++ "."]
     else [])
  let parts := parts ++
    (if medWallets.length > 0 then
      ["MEDIUM confidence: " ++ toString medWallets.length ++ " wallet(s) holding " ++
        fmt (some suspectedHoldings) ++ " " ++ tokenSymbol ++ "."]
     else [])
  let parts := parts ++
    (if lowWallets.length > 0 then
      let lowTotal : ℚ := lowWallets.foldl (fun acc w => acc + w.balance) 0
      ["LOW confidence: " ++ toString lowWallets.length ++ " wallet(s) holding " ++
        fmt (some lowTotal) ++ " " ++ tokenSymbol ++ "."]
     else [])
  let totalWallets := highWallets.length + medWallets.length
  let parts := parts ++
    (if totalWallets > 0 then
      let totalEstimate := targetBalance + confirmedHoldings + suspectedHoldings
      let lpTotal : ℚ := (highWallets ++ medWallets).foldl (fun acc w => acc + w.lpBalance) 0
      let stakedTotal : ℚ :=
        (highWallets ++ medWallets).foldl (fun acc w => acc + w.stakedBalance) 0
      let defiParts : List String :=
        (if 0 < lpTotal then [fmt (some lpTotal) ++ " in LP"] else []) ++
        (if 0 < stakedTotal then [fmt (some stakedTotal) ++ " staked"] else [])
      (if defiParts.length > 0 then
        ["DEFI POSITIONS: " ++ joinSep ", " defiParts ++ " " ++ tokenSymbol ++
          " across cluster wallets."]
       else []) ++
      (let trueTotal := totalEstimate + lpTotal + stakedTotal
       let suffix := if defiParts.length > 0 then " (including DeFi positions)" else ""
       ["CURRENT ESTIMATED SAME-OWNER HOLDINGS: " ++ fmt (some trueTotal) ++ " " ++
         tokenSymbol ++ " across " ++ toString (totalWallets + 1) ++ " wallets" ++ suffix ++ "."])
     else ["No strong same-owner signals were detected among connected wallets."])
  joinSep " " parts

/-! ### The main analysis -/

/-- `analyzeHoldings`: the attribution engine's entry point.  `nowSec`
makes the engine's one hidden input — the wall clock read by
`generateRiskFlags` — explicit. -/
def analyzeHoldings (scanResult : ScanResult) (targetWallet tokenSymbol : String)
    (fundingSources : List (String × String)) (nowSec : ℤ) : HoldingsReport :=
  let target := (lowerStr targetWallet)
  let transfers := scanResult.transfers
  let contractSet := scanResult.detectedContracts
  let decimals := decimalsOf transfers
  let targetNode := scanResult.nodes.find? (fun n => n.id == target)
  let targetBalance := (targetNode.bind (·.balance)).getD 0
  let targetSentTxs := targetSentTxsOf transfers target
  let sequentialGroups := detectSequentialSends targetSentTxs target
  let fundingClusters := fundingClustersOf fundingSources
  let walletHistories := walletHistoriesOf scanResult
  let targetHistory :=
    reconstructWalletHistory target transfers decimals contractSet scanResult.balances
  let ghostWallets := ghostWalletsOf scanResult
  let pt := passThroughOf scanResult
  let wallets := walletsOf scanResult target fundingSources
  let highWallets := wallets.filter (fun w => w.confidence == Confidence.high)
  let medWallets := wallets.filter (fun w => w.confidence == Confidence.medium)
  let lowWallets := wallets.filter (fun w => w.confidence == Confidence.low)
  let confirmedHoldings : ℚ := highWallets.foldl (fun acc w => acc + w.balance) 0
  let suspectedHoldings : ℚ := medWallets.foldl (fun acc w => acc + w.balance) 0
  let possibleHoldings : ℚ := lowWallets.foldl (fun acc w => acc + w.balance) 0
  let targetNodeLP := (targetNode.bind (·.lpBalance)).getD 0
  let targetNodeStaked := (targetNode.bind (·.stakedBalance)).getD 0
  let clusterLP : ℚ := (highWallets ++ medWallets).foldl (fun acc w => acc + w.lpBalance) 0
  let clusterStaked : ℚ :=
    (highWallets ++ medWallets).foldl (fun acc w => acc + w.stakedBalance) 0
  let totalInLP := targetNodeLP + clusterLP
  let totalStaked := targetNodeStaked + clusterStaked
  let totalWalletBalances := targetBalance + confirmedHoldings + suspectedHoldings
  let outboundSummary :=
    buildOutboundSummary transfers targetWallet contractSet decimals scanResult.balances
  let riskFlags :=
    generateRiskFlags wallets targetSentTxs sequentialGroups fundingClusters tokenSymbol
      ghostWallets pt.1 nowSec
  let clusterSummary :=
    generateSummary targetBalance targetHistory highWallets medWallets lowWallets
      confirmedHoldings suspectedHoldings tokenSymbol outboundSummary ghostWallets pt.1 pt.2
      scanResult.balances
  { targetWallet := targetWallet
    targetBalance := targetBalance
    totalHeldByCluster := confirmedHoldings + suspectedHoldings
    totalPossibleHidden := possibleHoldings
    totalWalletBalances := totalWalletBalances
    totalInLP := totalInLP
    totalStaked := totalStaked
    totalTrueHoldings := totalWalletBalances + totalInLP + totalStaked
    wallets := wallets
    clusterSummary := clusterSummary
    riskFlags := riskFlags
    outboundSummary := outboundSummary
    walletHistories := walletHistories
    ghostWallets := ghostWallets }

/-! ### Concrete inputs used by witnesses and counterexamples -/

/-- A transfer event with the fixed token metadata used by the test
inputs (`tokenDecimal = "1"`). -/
def mkTx (h f t v ts : String) : TransferTx :=
  { hash := h
    from_ := f
    to_ := t
    value := v
    timeStamp := ts
    tokenSymbol := "TOK"
    tokenName := "Token"
    tokenDecimal := "1"
    contractAddress := "0xcn" }

/-- A graph node with the auxiliary display fields zeroed. -/
def mkNode (id : String) (isTarget isContract : Bool) (bal : Option ℚ) : GraphNode :=
  { id := id
    address := id
    isTarget := isTarget
    isContract := isContract
    label := none
    txCount := 0
    volIn := 0
    volOut := 0
    balance := bal
    firstSeen := 0
    lastSeen := 0
    lpBalance := none
    stakedBalance := none }

/-- Scenario A input (claim C8): the target sends a single transfer of 100
tokens to wallet `0xww`, which still holds 100 and has no other
transfers. -/
def c8In : ScanResult :=
  { nodes := [mkNode "0xtt" true false (some 500), mkNode "0xww" false false (some 100)]
    links := [{ source := "0xtt", target := "0xww", value := 100, txCount := 1,
                direction := LinkDirection.sent }]
    transfers := [mkTx "0xh1" "0xtt" "0xww" "1000" "1000"]
    detectedContracts := []
    balances := [("0xtt", 500), ("0xww", 100)] }

/-- Pass-through lowering input (claim C1): ghost `0xgg` receives 1000
from the target, forwards 950 to `0xhh` (which still holds 900) and sends
1 back to the target; all three share gas funder `0xff`. -/
def c1In : ScanResult :=
  { nodes := [mkNode "0xtt" true false (some 50), mkNode "0xgg" false false (some 0),
              mkNode "0xhh" false false (some 900)]
    links := [{ source := "0xtt", target := "0xgg", value := 1000, txCount := 1,
                direction := LinkDirection.sent },
              { source := "0xgg", target := "0xtt", value := 1, txCount := 1,
                direction := LinkDirection.received }]
    transfers := [mkTx "0xh1" "0xtt" "0xgg" "10000" "1000",
                  mkTx "0xh2" "0xgg" "0xhh" "9500" "1500",
                  mkTx "0xh3" "0xgg" "0xtt" "10" "2000"]
    detectedContracts := []
    balances := [("0xgg", 0), ("0xhh", 900)] }

/-- Funding map for the C1 input. -/
def c1F : List (String × String) :=
  [("0xtt", "0xff"), ("0xgg", "0xff"), ("0xhh", "0xff")]

/-- Clock-dependence input (claim C2): the target makes two positive sends
at timestamps 1000 and 200000. -/
def c2In : ScanResult :=
  { nodes := [mkNode "0xtt" true false (some 500)]
    links := []
    transfers := [mkTx "0xh1" "0xtt" "0xaa" "100" "1000",
                  mkTx "0xh2" "0xtt" "0xbb" "100" "200000"]
    detectedContracts := []
    balances := [] }

/-- Intermediary-bonus input (claim C3): wallet `0xww` received only from
third party `0xss`; `0xss` never transacted with the target, whose only
transfer is an unrelated send to `0xxx`. -/
def c3In : ScanResult :=
  { nodes := [mkNode "0xtt" true false (some 500), mkNode "0xww" false false (some 100)]
    links := []
    transfers := [mkTx "0xa1" "0xss" "0xww" "1000" "1000",
                  mkTx "0xb1" "0xtt" "0xxx" "500" "2000"]
    detectedContracts := []
    balances := [("0xww", 100)] }

/-- LOW-confidence input (claim C1 witness): wallet `0xww` has
bidirectional transfers with the target (+30) and nothing else. -/
def lowIn : ScanResult :=
  { nodes := [mkNode "0xtt" true false (some 500), mkNode "0xww" false false (some 0)]
    links := [{ source := "0xtt", target := "0xww", value := 100, txCount := 1,
                direction := LinkDirection.sent },
              { source := "0xww", target := "0xtt", value := 100, txCount := 1,
                direction := LinkDirection.received }]
    transfers := [mkTx "0xh1" "0xtt" "0xww" "1000" "1000",
                  mkTx "0xh2" "0xww" "0xtt" "1000" "500000",
                  mkTx "0xh3" "0xss" "0xww" "500" "2000"]
    detectedContracts := []
    balances := [("0xww", 0), ("0xtt", 0)] }

/-- Boundary-share transfers (claim C5 witness): wallet `0xww` receives 70
from the target and 30 from a third party — from-target share exactly
0.70. -/
def c5txs : List TransferTx :=
  [mkTx "0xh1" "0xtt" "0xww" "700" "100", mkTx "0xh2" "0xss" "0xww" "300" "200"]

/-- Disposition-closure transfers (claim C6 witness): wallet `0xww`
receives 100, sells 60 to contract `0xcc` and sends 40 to `0xrr`. -/
def c6txs : List TransferTx :=
  [mkTx "0xh1" "0xtt" "0xww" "1000" "100",
   mkTx "0xh2" "0xww" "0xcc" "600" "200",
   mkTx "0xh3" "0xww" "0xrr" "400" "300"]

/-- Malformed-amount transfer (claim C7): `value` is not numeric. -/
def c7txs : List TransferTx :=
  [mkTx "0xh1" "0xss" "0xww" "abc" "100"]

/-- Negative-amount transfer (claim C10 counterexample). -/
def c10txs : List TransferTx :=
  [mkTx "0xh1" "0xww" "0xrr" "-10" "100"]

/-- Balance map for the C10 counterexample. -/
def c10bal : List (String × ℚ) := [("0xrr", -6)]

/-- Non-negative second-hop transfer (claim C10 witness). -/
def w10txs : List TransferTx :=
  [mkTx "0xh1" "0xww" "0xrr" "10" "100"]

/-- Balance map for the C10 witness. -/
def w10bal : List (String × ℚ) := [("0xrr", 4)]

/-- Funding map for the C8 counterexample: wallet `0xww` and the target
`0xtt` share gas funder `0xff`. -/
def c8F : List (String × String) := [("0xww", "0xff"), ("0xtt", "0xff")]

/-! ### Claim theorems -/

/-- C8 (counterexample): the Scenario A conditions do not force a score of
40 on every input.  On `c8In` — wallet `0xww` received a single transfer
of 100 tokens from the target, currently holds 100 and has no other
transfers with anyone, the graph links matching those transfers — but with
a funding map recording the same gas funder `0xff` for `0xww` and the
target, the shared-funding heuristic also fires (+25): the score totals 65
and the report lists the wallet with HIGH confidence, not MEDIUM. -/
theorem scenarioA_shared_funder_score_65_high :
    (c8In.transfers.filter (fun tx =>
        (lowerStr tx.from_) == "0xww" || (lowerStr tx.to_) == "0xww") =
          [mkTx "0xh1" "0xtt" "0xww" "1000" "1000"] ∧
      c8In.balances.lookup "0xww" = some 100) ∧
    (walletScoresOf c8In "0xtt" c8F).map (fun sc => (sc.address, sc.score)) =
      [("0xww", 65)] ∧
    ((analyzeHoldings c8In "0xtt" "TOK" c8F 0).wallets).map
        (fun w => (w.address, w.confidence)) = [("0xww", Confidence.high)] :=
  of_decide_eq_true (by with_unfolding_all rfl)

/-- C1 (counterexample): on the `c1In` input the ghost `0xgg` is a
detected pass-through whose final holder `0xhh` is in the report with
MEDIUM confidence; `0xgg` scores 75, i.e. HIGH from its own score, yet
its reported tier after the override is MEDIUM — the override lowered the
tier. -/
theorem override_lowers_high_ghost_to_medium :
    ((analyzeHoldings c1In "0xtt" "TOK" c1F 0).wallets).map
        (fun w => (w.address, w.confidence)) =
      [("0xgg", Confidence.medium), ("0xhh", Confidence.medium)] ∧
    (sortedScoresOf c1In "0xtt" c1F).map (fun s => (s.address, s.score)) =
      [("0xgg", 75), ("0xhh", 40)] ∧
    tierOfScore 75 = Confidence.high ∧
    (passThroughOf c1In).1 = ["0xgg"] ∧
    (passThroughOf c1In).2.lookup "0xgg" = some "0xhh" :=
  of_decide_eq_true (by with_unfolding_all rfl)

/-- C2 (counterexample): `analyzeHoldings` reads the wall clock inside
`generateRiskFlags`; on the `c2In` input the reports produced at clock
times 500000 and 1000000000 differ (the trailing-7-days dispersal flag is
present only in the first). -/
theorem analyzeHoldings_depends_on_clock :
    decide (analyzeHoldings c2In "0xtt" "TOK" [] 500000 =
        analyzeHoldings c2In "0xtt" "TOK" [] 1000000000) = false ∧
    decide ((analyzeHoldings c2In "0xtt" "TOK" [] 500000).riskFlags =
        (analyzeHoldings c2In "0xtt" "TOK" [] 1000000000).riskFlags) = false :=
  ⟨by with_unfolding_all rfl, by with_unfolding_all rfl⟩

/-- C3 (failing input): wallet `0xww`'s tokens come entirely from third
party `0xss`, which never appears as a counterparty of the target; the
target's only transfer is an unrelated send to `0xxx` under a different
hash.  The scorer nevertheless awards the +15 intermediary bonus. -/
theorem intermediary_bonus_without_connected_source :
    (walletScoresOf c3In "0xtt" []).map (fun s => (s.address, s.score, s.tokenOrigin, s.reasons)) =
      [("0xww", 15, TokenOrigin.fromThirdParty,
        ["Received via intermediary connected to target"])] ∧
    (originSumsOf "0xww" "0xtt" c3In.transfers [] 1).largestSource = "0xss" ∧
    c3In.transfers.any (fun tx =>
        ((lowerStr tx.from_) == "0xss" && (lowerStr tx.to_) == "0xtt") ||
        ((lowerStr tx.to_) == "0xss" && (lowerStr tx.from_) == "0xtt")) = false :=
  of_decide_eq_true (by with_unfolding_all rfl)

/-- C7 (counterexample): an un-parseable `rawValue` is parsed as NaN, not
0, and the NaN propagates: with the single malformed incoming transfer of
`c7txs`, `totalReceived` is NaN rather than 0. -/
theorem unparseable_value_gives_nan_total :
    parseFloat "abc" = none ∧
    (reconstructWalletHistory "0xww" c7txs 1 [] []).totalReceived = none :=
  of_decide_eq_true (by with_unfolding_all rfl)

/-- C10 (counterexample): a recipient with no outbound transfers whose
balance (−6) is not greater than 50% of the (negative) amount it received
(−10) is classified `sold`, not `holding`: the zero sold-sum compares
greater than the negative threshold. -/
theorem negative_amount_recipient_not_holding :
    ((reconstructWalletHistory "0xww" c10txs 0 [] c10bal).disposition.sentToWallets.recipients).map
        (fun r => (r.address, r.amountReceived, r.currentBalance, r.status)) =
      [("0xrr", some (-10), -6, RecipientStatus.sold)] ∧
    (c10txs.filter (fun tx => (lowerStr tx.from_) == "0xrr")).isEmpty = true ∧
    jsGt (some (-6 : ℚ)) (jsMul (some (-10 : ℚ)) (some (1 / 2))) = false :=
  of_decide_eq_true (by with_unfolding_all rfl)

/-! ### Helper lemmas about the JS-number operations -/

theorem jsAdd_eq_some {a b : JNum} {c : ℚ} (h : jsAdd a b = some c) :
    ∃ x y : ℚ, a = some x ∧ b = some y ∧ x + y = c := by
  cases a with
  | none => simp [jsAdd] at h
  | some x =>
    cases b with
    | none => simp [jsAdd] at h
    | some y => exact ⟨x, y, rfl, rfl, by simpa [jsAdd] using h⟩

theorem jsEq_some_some (a b : ℚ) : jsEq (some a) (some b) = decide (a = b) := rfl

theorem jsGe_some_some (a b : ℚ) : jsGe (some a) (some b) = decide (b ≤ a) := rfl

theorem jsGt_some_some (a b : ℚ) : jsGt (some a) (some b) = decide (b < a) := rfl

theorem jsDiv_some_some (a : ℚ) {b : ℚ} (hb : b ≠ 0) :
    jsDiv (some a) (some b) = some (a / b) := by
  simp [jsDiv, hb]

/-- C2 (amended): `analyzeHoldings` is a deterministic function of its
four inputs and the wall-clock time; every field of the report except
`riskFlags` is independent of the clock. -/
theorem analyzeHoldings_deterministic_given_clock (s : ScanResult) (tw sym : String)
    (f : List (String × String)) (n₁ n₂ : ℤ) :
    analyzeHoldings s tw sym f n₁ =
      { analyzeHoldings s tw sym f n₂ with
        riskFlags := (analyzeHoldings s tw sym f n₁).riskFlags } :=
  rfl

/-- C5: for a wallet with at least one incoming transfer and strictly
positive total incoming volume, `traceTokenOrigin` returns `from-target`
exactly when the from-target share of the total incoming volume is at
least 0.70; in particular a share of exactly 0.70 is classified
`from-target` and any smaller share is not. -/
theorem traceTokenOrigin_target_iff (walletAddr target : String)
    (transfers : List TransferTx) (cs : List String) (d : ℤ) (ft t : ℚ)
    (hinc : incomingOf transfers (lowerStr walletAddr) ≠ [])
    (hft : (originSumsOf walletAddr target transfers cs d).fromTarget = some ft)
    (htot : originTotalOf walletAddr target transfers cs d = some t)
    (hpos : 0 < t) :
    (traceTokenOrigin walletAddr target transfers cs d).1 = TokenOrigin.fromTarget ↔
      7 / 10 ≤ ft / t := by
  have htot' : jsAdd
      (jsAdd (originSumsOf walletAddr target transfers cs d).fromTarget
        (originSumsOf walletAddr target transfers cs d).fromDex)
      (originSumsOf walletAddr target transfers cs d).fromThirdParty = some t := htot
  have hincE : (incomingOf transfers (lowerStr walletAddr)).isEmpty = false := by
    cases h : incomingOf transfers (lowerStr walletAddr) with
    | nil => exact absurd h hinc
    | cons a l => rfl
  rw [traceTokenOrigin]
  simp only [hincE, Bool.false_eq_true, if_false]
  rw [htot']
  have h0 : jsEq (some t) (some 0) = false := by
    simp [jsEq, hpos.ne']
  rw [h0]
  simp only [Bool.false_eq_true, if_false]
  rw [hft, jsDiv_some_some ft hpos.ne', jsGe_some_some]
  by_cases hc : (7 : ℚ) / 10 ≤ ft / t
  · simp [hc]
  · rw [decide_eq_false hc]
    simp only [Bool.false_eq_true, if_false]
    constructor
    · intro h
      exfalso
      revert h
      split
      · simp
      · split
        · split <;> simp
        · simp
    · intro h
      exact absurd h hc

/-- C5 (witness): on the boundary input the from-target share is exactly
0.70 = 70/100 and the origin is `from-target`. -/
theorem traceTokenOrigin_boundary_witness :
    incomingOf c5txs (lowerStr "0xww") ≠ [] ∧ (0 : ℚ) < 100 ∧
    (7 : ℚ) / 10 ≤ 70 / 100 ∧
    (traceTokenOrigin "0xww" "0xtt" c5txs [] 1).1 = TokenOrigin.fromTarget :=
  ⟨of_decide_eq_true (by with_unfolding_all rfl), by norm_num, by norm_num,
    (traceTokenOrigin_target_iff "0xww" "0xtt" c5txs [] 1 70 100
      (of_decide_eq_true (by with_unfolding_all rfl))
      (of_decide_eq_true (by with_unfolding_all rfl))
      (of_decide_eq_true (by with_unfolding_all rfl))
      (by norm_num)).mpr (by norm_num)⟩

/-! ### Percentage lemmas -/

theorem pctOf_zero (A : JNum) : pctOf A (some 0) = some 0 := by
  simp [pctOf, jsGt]

theorem pctOf_zero_amount (T : JNum) : pctOf (some 0) T = some 0 := by
  unfold pctOf
  split
  · rename_i h
    cases T with
    | none => simp [jsGt] at h
    | some t =>
      have ht : 0 < t := by simpa [jsGt] using h
      rw [jsDiv_some_some 0 ht.ne']
      simp [jsMul]
  · rfl

theorem pctOf_isSome_of (X T : JNum) (hX : T.isSome = true → X.isSome = true) :
    (pctOf X T).isSome = true := by
  unfold pctOf
  split
  · rename_i h
    cases T with
    | none => simp [jsGt] at h
    | some t =>
      have ht : 0 < t := by simpa [jsGt] using h
      cases X with
      | none => simp at hX
      | some x =>
        rw [jsDiv_some_some x ht.ne']
        simp [jsMul]
  · simp

theorem pct_zero_of (A T : JNum) (h : T = some 0) : pctOf A T = some 0 := by
  rw [h]
  exact pctOf_zero A

theorem pct_sum_100 {A B C D : JNum} {t : ℚ}
    (h : jsAdd (jsAdd (jsAdd A B) C) D = some t) (ht : 0 < t) :
    jsAdd
      (jsAdd
        (jsAdd (pctOf A (jsAdd (jsAdd (jsAdd A B) C) D))
          (pctOf B (jsAdd (jsAdd (jsAdd A B) C) D)))
        (pctOf C (jsAdd (jsAdd (jsAdd A B) C) D)))
      (pctOf D (jsAdd (jsAdd (jsAdd A B) C) D)) = some 100 := by
  obtain ⟨abc, dv, habc, hd, hsum⟩ := jsAdd_eq_some h
  obtain ⟨ab, c, hab, hc, h2⟩ := jsAdd_eq_some habc
  obtain ⟨a, b, ha, hb, h3⟩ := jsAdd_eq_some hab
  subst ha hb hc hd
  rw [h]
  have hgt : jsGt (some t) (some 0) = true := by simp [jsGt, ht]
  simp only [pctOf, hgt, if_true]
  rw [jsDiv_some_some a ht.ne', jsDiv_some_some b ht.ne', jsDiv_some_some c ht.ne',
    jsDiv_some_some dv ht.ne']
  simp only [jsMul, jsAdd, Option.some.injEq]
  have hsum' : a + b + c + dv = t := by linarith
  field_simp
  linarith

/-- C6: the four disposition percentages of every reconstructed wallet
history sum to exactly 100 whenever the total classified outbound amount
is strictly positive, and each percentage equals 0 (never NaN, no
exception) when the total outbound amount is 0. -/
theorem disposition_closure (wallet : String) (transfers : List TransferTx)
    (d : ℤ) (cs : List String) (bal : List (String × ℚ)) :
    (∀ t : ℚ,
      jsAdd
          (jsAdd
            (jsAdd (reconstructWalletHistory wallet transfers d cs bal).disposition.soldOnDex.amount
              (reconstructWalletHistory wallet transfers d cs bal).disposition.sentToWallets.amount)
            (reconstructWalletHistory wallet transfers d cs bal).disposition.sentToContracts.amount)
          (reconstructWalletHistory wallet transfers d cs bal).disposition.burnedOrLost.amount =
        some t →
      0 < t →
      jsAdd
        (jsAdd
          (jsAdd
            (reconstructWalletHistory wallet transfers d cs bal).disposition.soldOnDex.percentage
            (reconstructWalletHistory wallet transfers d cs bal).disposition.sentToWallets.percentage)
          (reconstructWalletHistory wallet transfers d cs bal).disposition.sentToContracts.percentage)
        (reconstructWalletHistory wallet transfers d cs bal).disposition.burnedOrLost.percentage =
        some 100) ∧
    (jsAdd
        (jsAdd
          (jsAdd (reconstructWalletHistory wallet transfers d cs bal).disposition.soldOnDex.amount
            (reconstructWalletHistory wallet transfers d cs bal).disposition.sentToWallets.amount)
          (reconstructWalletHistory wallet transfers d cs bal).disposition.sentToContracts.amount)
        (reconstructWalletHistory wallet transfers d cs bal).disposition.burnedOrLost.amount =
      some 0 →
      (reconstructWalletHistory wallet transfers d cs bal).disposition.soldOnDex.percentage =
          some 0 ∧
      (reconstructWalletHistory wallet transfers d cs bal).disposition.sentToWallets.percentage =
          some 0 ∧
      (reconstructWalletHistory wallet transfers d cs bal).disposition.sentToContracts.percentage =
          some 0 ∧
      (reconstructWalletHistory wallet transfers d cs bal).disposition.burnedOrLost.percentage =
          some 0) := by
  constructor
  · intro t h ht
    exact pct_sum_100 h ht
  · intro h
    exact ⟨pct_zero_of _ _ h, pct_zero_of _ _ h, pct_zero_of _ _ h, pct_zero_of _ _ h⟩
/-- C6 (witness): concrete disposition-closure instance — wallet `0xww`
sells 60 and passes 40, total outbound 100, percentages sum to 100. -/
theorem disposition_closure_witness :
    jsAdd
      (jsAdd
        (jsAdd
          (reconstructWalletHistory "0xww" c6txs 1 ["0xcc"] []).disposition.soldOnDex.percentage
          (reconstructWalletHistory "0xww" c6txs 1
              ["0xcc"] []).disposition.sentToWallets.percentage)
        (reconstructWalletHistory "0xww" c6txs 1
            ["0xcc"] []).disposition.sentToContracts.percentage)
      (reconstructWalletHistory "0xww" c6txs 1 ["0xcc"] []).disposition.burnedOrLost.percentage =
      some 100 :=
  (disposition_closure "0xww" c6txs 1 ["0xcc"] []).1 100
    (of_decide_eq_true (by with_unfolding_all rfl)) (by norm_num)

theorem jsAdd_isSome_left {a b : JNum} (h : (jsAdd a b).isSome = true) : a.isSome = true := by
  cases a with
  | none => simp [jsAdd] at h
  | some x => rfl

theorem jsAdd_isSome_right {a b : JNum} (h : (jsAdd a b).isSome = true) : b.isSome = true := by
  cases a with
  | none => simp [jsAdd] at h
  | some x =>
    cases b with
    | none => simp [jsAdd] at h
    | some y => rfl

/-- C7 (amended): whatever the transfer list — malformed amounts
included — the four disposition percentage fields of a reconstructed
wallet history are never NaN: the positivity guard returns 0 whenever the
total is not a positive number. -/
theorem disposition_percentages_never_nan (wallet : String) (transfers : List TransferTx)
    (d : ℤ) (cs : List String) (bal : List (String × ℚ)) :
    ((reconstructWalletHistory wallet transfers d cs bal).disposition.soldOnDex.percentage).isSome
        = true ∧
    ((reconstructWalletHistory wallet transfers d cs
        bal).disposition.sentToWallets.percentage).isSome = true ∧
    ((reconstructWalletHistory wallet transfers d cs
        bal).disposition.sentToContracts.percentage).isSome = true ∧
    ((reconstructWalletHistory wallet transfers d cs
        bal).disposition.burnedOrLost.percentage).isSome = true := by
  refine ⟨pctOf_isSome_of _ _ ?_, pctOf_isSome_of _ _ ?_, pctOf_isSome_of _ _ ?_,
    pctOf_isSome_of _ _ ?_⟩
  · intro h
    exact jsAdd_isSome_left (jsAdd_isSome_left (jsAdd_isSome_left h))
  · intro h
    exact jsAdd_isSome_right (jsAdd_isSome_left (jsAdd_isSome_left h))
  · intro h
    exact jsAdd_isSome_right (jsAdd_isSome_left h)
  · intro h
    exact jsAdd_isSome_right h

/-- C10 (amended): a second-hop recipient with no outbound transfers in
the set, whose current balance is not greater than 50% of the amount it
received, and whose received amount is non-negative (or NaN), is reported
with status `holding` — the default when no classification condition
fires.  (With a negative received amount the `sold` branch can fire, see
the counterexample.) -/
theorem recipient_default_status_holding (wallet : String) (transfers : List TransferTx)
    (d : ℤ) (cs : List String) (bal : List (String × ℚ)) (r : RecipientDisposition)
    (hr : r ∈ (reconstructWalletHistory wallet transfers d cs
        bal).disposition.sentToWallets.recipients)
    (hout : transfers.filter (fun tx => lowerStr tx.from_ == r.address) = [])
    (hbal : jsGt (some r.currentBalance) (jsMul r.amountReceived (some (1 / 2))) = false)
    (hnn : ∀ q : ℚ, r.amountReceived = some q → 0 ≤ q) :
    r.status = RecipientStatus.holding := by
  have hr' : r ∈ recipientsOf wallet transfers d cs bal := hr
  obtain ⟨e, he, hre⟩ := List.mem_map.mp hr'
  have haddr : r.address = e.1 := by rw [← hre]; rfl
  have hamt : r.amountReceived = e.2 := by rw [← hre]; rfl
  have hcur : r.currentBalance = (bal.lookup e.1).getD 0 := by rw [← hre]; rfl
  rw [haddr] at hout
  rw [hamt] at hnn
  rw [hamt, hcur] at hbal
  rw [← hre]
  show (buildRecipientDisposition transfers d cs bal e).status = RecipientStatus.holding
  simp only [buildRecipientDisposition]
  rw [hout]
  simp only [List.foldl_nil]
  rw [hbal]
  have hz : ∀ x : JNum, (∀ q : ℚ, x = some q → 0 ≤ q) →
      jsGt (some 0) (jsMul x (some (1 / 2))) = false := by
    intro x hx
    cases x with
    | none => rfl
    | some q =>
      have hq : 0 ≤ q := hx q rfl
      simp only [jsMul, jsGt, decide_eq_false_iff_not, not_lt]
      positivity
  rw [hz e.2 hnn]
  simp [jsGt]

/-- C10 (witness): concrete holding-status instance — recipient `0xrr`
received 10, holds 4 (not more than 5), has no outbound transfers, and is
reported `holding`. -/
theorem recipient_default_status_holding_witness :
    { address := "0xrr", amountReceived := some 10, currentBalance := 4,
      soldFromHere := some 0, passedAlong := some 0, stillHolding := 4,
      status := RecipientStatus.holding : RecipientDisposition } ∈
        (reconstructWalletHistory "0xww" w10txs 0 [] w10bal).disposition.sentToWallets.recipients ∧
    ({ address := "0xrr", amountReceived := some 10, currentBalance := 4,
       soldFromHere := some 0, passedAlong := some 0, stillHolding := 4,
       status := RecipientStatus.holding : RecipientDisposition }).status =
      RecipientStatus.holding :=
  ⟨of_decide_eq_true (by with_unfolding_all rfl),
    recipient_default_status_holding "0xww" w10txs 0 [] w10bal _
      (of_decide_eq_true (by with_unfolding_all rfl))
      (of_decide_eq_true (by with_unfolding_all rfl))
      (of_decide_eq_true (by with_unfolding_all rfl))
      (fun q hq => by
        have : (10 : ℚ) = q := by
          simpa using hq
        rw [← this]
        norm_num)⟩

/-- Effect of one replay step on the `soldOnDex` accumulator: an outgoing
transfer to a non-burn DEX/contract destination adds its value; any other
transfer leaves it unchanged. -/
theorem replayStep_sold (addr : String) (d : ℤ) (cs : List String) (st : ReplayState)
    (tx : TransferTx) :
    (replayStep addr d cs st tx).soldOnDexAmount =
      if lowerStr tx.to_ != addr && !isBurnAddress (lowerStr tx.to_) &&
          (isDexRouter (lowerStr tx.to_) || cs.contains (lowerStr tx.to_)) then
        jsAdd st.soldOnDexAmount (valOf d tx)
      else st.soldOnDexAmount := by
  by_cases h1 : lowerStr tx.to_ = addr <;>
  by_cases h2 : isBurnAddress (lowerStr tx.to_) = true <;>
  by_cases h3 : isDexRouter (lowerStr tx.to_) = true ∨ lowerStr tx.to_ ∈ cs <;>
    simp [replayStep, h1, h2, h3, apply_ite ReplayState.soldOnDexAmount, ite_self]

/-- The replay fold accumulates `soldOnDex` exactly over the outgoing
transfers classified to the DEX/contract bucket. -/
theorem foldl_replay_sold (addr : String) (d : ℤ) (cs : List String) :
    ∀ (txs : List TransferTx) (st : ReplayState),
      (txs.foldl (replayStep addr d cs) st).soldOnDexAmount =
        (txs.filter (fun tx =>
            lowerStr tx.to_ != addr && !isBurnAddress (lowerStr tx.to_) &&
            (isDexRouter (lowerStr tx.to_) || cs.contains (lowerStr tx.to_)))).foldl
          (fun acc tx => jsAdd acc (valOf d tx)) st.soldOnDexAmount
  | [], _ => rfl
  | tx :: txs, st => by
    rw [List.foldl_cons, foldl_replay_sold addr d cs txs (replayStep addr d cs st tx),
      replayStep_sold, List.filter_cons]
    by_cases hP : (lowerStr tx.to_ != addr && !isBurnAddress (lowerStr tx.to_) &&
        (isDexRouter (lowerStr tx.to_) || cs.contains (lowerStr tx.to_))) = true
    · rw [if_pos hP, if_pos hP, List.foldl_cons]
    · rw [if_neg hP, if_neg hP]

/-- C9: the `sentToContracts` bucket of every wallet history and the
`toContracts` bucket of the outbound summary are identically zero
(amount, percentage and — for the summary — transaction count), and every
outgoing transfer to a non-burn DEX/contract destination is accumulated
in the `soldOnDex` bucket instead. -/
theorem sentToContracts_identically_zero (wallet : String) (transfers : List TransferTx)
    (d : ℤ) (cs : List String) (bal : List (String × ℚ)) (target : String) :
    ((reconstructWalletHistory wallet transfers d cs bal).disposition.sentToContracts.amount =
        some 0 ∧
     (reconstructWalletHistory wallet transfers d cs bal).disposition.sentToContracts.percentage =
        some 0) ∧
    ((buildOutboundSummary transfers target cs d bal).toContracts.amount = some 0 ∧
     (buildOutboundSummary transfers target cs d bal).toContracts.percentage = some 0 ∧
     (buildOutboundSummary transfers target cs d bal).toContracts.txCount = 0) ∧
    (reconstructWalletHistory wallet transfers d cs bal).disposition.soldOnDex.amount =
      ((walletTxsOf wallet transfers).filter (fun tx =>
          lowerStr tx.to_ != lowerStr wallet && !isBurnAddress (lowerStr tx.to_) &&
          (isDexRouter (lowerStr tx.to_) || cs.contains (lowerStr tx.to_)))).foldl
        (fun acc tx => jsAdd acc (valOf d tx)) (some 0) :=
  ⟨⟨rfl, pctOf_zero_amount _⟩,
   ⟨rfl, pctOf_zero_amount _, rfl⟩,
   foldl_replay_sold (lowerStr wallet) d cs (walletTxsOf wallet transfers) initReplayState⟩

/-! ### The override pass: structural invariant -/

/-- Invariant of the confidence-override pass: the list keeps its length
and every element is either untouched or a confidence-modified copy whose
new confidence is HIGH or MEDIUM. -/
def OverrideRel (ws ws' : List HiddenHoldingWallet) : Prop :=
  ws'.length = ws.length ∧
  ∀ (j : ℕ) (w' : HiddenHoldingWallet), ws'[j]? = some w' →
    ws[j]? = some w' ∨
    ∃ w, ws[j]? = some w ∧ w' = { w with confidence := w'.confidence } ∧
      (w'.confidence = Confidence.high ∨ w'.confidence = Confidence.medium)

theorem overrideRel_refl (ws : List HiddenHoldingWallet) : OverrideRel ws ws :=
  ⟨rfl, fun _ _ h => Or.inl h⟩

theorem overrideRel_set (ws ws' : List HiddenHoldingWallet) (i : ℕ)
    (w : HiddenHoldingWallet) (c : Confidence) (hwi : ws'[i]? = some w)
    (hc : c = Confidence.high ∨ c = Confidence.medium) (h : OverrideRel ws ws') :
    OverrideRel ws (ws'.set i { w with confidence := c }) := by
  constructor
  · rw [List.length_set]
    exact h.1
  · intro j w' hj
    rw [List.getElem?_set] at hj
    by_cases hij : i = j
    · subst hij
      rw [if_pos rfl, if_pos (List.getElem?_eq_some.mp hwi).1] at hj
      injection hj with hj
      subst hj
      rcases h.2 i w hwi with h1 | ⟨w0, h0, hw0, _⟩
      · exact Or.inr ⟨w, h1, rfl, hc⟩
      · right
        refine ⟨w0, h0, ?_, hc⟩
        rw [hw0]
    · rw [if_neg hij] at hj
      exact h.2 j w' hj

theorem overrideStep_cases (ptW : List String) (ptT : List (String × String))
    (ws' : List HiddenHoldingWallet) (i : ℕ) :
    overrideStep ptW ptT ws' i = ws' ∨
    ∃ w c, ws'[i]? = some w ∧ ptW.contains (lowerStr w.address) = true ∧
      (c = Confidence.high ∨ c = Confidence.medium) ∧
      overrideStep ptW ptT ws' i = ws'.set i { w with confidence := c } := by
  unfold overrideStep
  cases hwi : ws'[i]? with
  | none => exact Or.inl rfl
  | some w =>
    by_cases h1 : ptW.contains (lowerStr w.address) = true
    · cases hfa : ptT.lookup (lowerStr w.address) with
      | none =>
        left
        simp only [hfa, ite_self]
      | some finalAddr =>
        cases hfw : ws'.find? (fun fw => lowerStr fw.address == finalAddr) with
        | none =>
          left
          simp only [hfa, hfw, ite_self]
        | some finalWallet =>
          by_cases hc : finalWallet.confidence = Confidence.high ∨
              finalWallet.confidence = Confidence.medium
          · refine Or.inr ⟨w, finalWallet.confidence, rfl, h1, hc, ?_⟩
            simp only [hfa, hfw]
            rw [if_pos h1, if_pos hc]
          · left
            simp only [hfa, hfw]
            rw [if_pos h1, if_neg hc]
    · exact Or.inl (if_neg h1)

theorem overrideRel_step (ptW : List String) (ptT : List (String × String))
    (ws ws' : List HiddenHoldingWallet) (i : ℕ) (h : OverrideRel ws ws') :
    OverrideRel ws (overrideStep ptW ptT ws' i) := by
  rcases overrideStep_cases ptW ptT ws' i with heq | ⟨w, c, hwi, _, hc, heq⟩
  · rw [heq]
    exact h
  · rw [heq]
    exact overrideRel_set ws ws' i w c hwi hc h

theorem overrideRel_foldl (ptW : List String) (ptT : List (String × String)) :
    ∀ (idxs : List ℕ) (ws ws' : List HiddenHoldingWallet), OverrideRel ws ws' →
      OverrideRel ws (idxs.foldl (overrideStep ptW ptT) ws')
  | [], _, _, h => h
  | i :: idxs, ws, ws', h =>
    overrideRel_foldl ptW ptT idxs ws (overrideStep ptW ptT ws' i)
      (overrideRel_step ptW ptT ws ws' i h)

theorem applyOverride_rel (ptW : List String) (ptT : List (String × String))
    (ws : List HiddenHoldingWallet) : OverrideRel ws (applyOverride ptW ptT ws) :=
  overrideRel_foldl ptW ptT (List.range ws.length) ws ws (overrideRel_refl ws)

/-- Every admitted score passed the `score >= 15` admission filter. -/
theorem mem_walletScoresOf_score (s : ScanResult) (target : String)
    (f : List (String × String)) (sc : WalletScore)
    (h : sc ∈ walletScoresOf s target f) : 15 ≤ sc.score := by
  unfold walletScoresOf at h
  obtain ⟨node, _, hsc⟩ := List.mem_filterMap.mp h
  by_cases h15 : 15 ≤ (scoreWalletOf s target f node).score
  · rw [if_pos h15] at hsc
    injection hsc with hsc
    rw [← hsc]
    exact h15
  · rw [if_neg h15] at hsc
    cases hsc

/-- Every wallet of the final report list comes from an admitted score
with the same address, and its reported confidence is either the tier of
that score or a HIGH/MEDIUM value assigned by the override. -/
theorem final_wallet_from_score (s : ScanResult) (target : String)
    (f : List (String × String)) :
    ∀ w ∈ walletsOf s target f,
      ∃ sc ∈ walletScoresOf s target f, sc.address = w.address ∧
        (w.confidence = tierOfScore sc.score ∨
          w.confidence = Confidence.high ∨ w.confidence = Confidence.medium) := by
  intro w hw
  obtain ⟨j, hj⟩ := List.mem_iff_getElem?.mp hw
  have hrel := applyOverride_rel (passThroughOf s).1 (passThroughOf s).2
    (preOverrideWalletsOf s target f)
  have hj' : (applyOverride (passThroughOf s).1 (passThroughOf s).2
      (preOverrideWalletsOf s target f))[j]? = some w := hj
  have hget : ∀ p : HiddenHoldingWallet, (preOverrideWalletsOf s target f)[j]? = some p →
      ∃ sc ∈ walletScoresOf s target f, toHiddenOf s sc = p := by
    intro p hp
    unfold preOverrideWalletsOf at hp
    rw [List.getElem?_map] at hp
    cases hsc : (sortedScoresOf s target f)[j]? with
    | none => rw [hsc] at hp; cases hp
    | some sc =>
      rw [hsc] at hp
      injection hp with hp
      refine ⟨sc, ?_, hp⟩
      have : sc ∈ sortedScoresOf s target f := List.mem_iff_getElem?.mpr ⟨j, hsc⟩
      exact (mem_stableSort scoreDescLe (walletScoresOf s target f) sc).mp this
  rcases hrel.2 j w hj' with h1 | ⟨w0, h0, hw0, hcm⟩
  · obtain ⟨sc, hmem, hhid⟩ := hget w h1
    refine ⟨sc, hmem, ?_, Or.inl ?_⟩
    · rw [← hhid]
      rfl
    · rw [← hhid]
      rfl
  · obtain ⟨sc, hmem, hhid⟩ := hget w0 h0
    refine ⟨sc, hmem, ?_, Or.inr hcm⟩
    rw [hw0, ← hhid]
    rfl

/-- C4: every wallet in the report's wallet list arises from a summed
heuristic score of at least 15 — the admission filter never lets a wallet
below the floor through. -/
theorem score_floor (s : ScanResult) (tw sym : String) (f : List (String × String))
    (n : ℤ) :
    ∀ w ∈ (analyzeHoldings s tw sym f n).wallets,
      ∃ sc ∈ walletScoresOf s (lowerStr tw) f, sc.address = w.address ∧ 15 ≤ sc.score := by
  intro w hw
  obtain ⟨sc, hmem, haddr, _⟩ := final_wallet_from_score s (lowerStr tw) f w hw
  exact ⟨sc, hmem, haddr, mem_walletScoresOf_score s (lowerStr tw) f sc hmem⟩

/-- C1 (amended): the pass-through override only ever assigns HIGH or
MEDIUM, so a wallet reported LOW carries the tier derived from its own
score; the override can however lower a HIGH ghost to MEDIUM (see the
counterexample). -/
theorem reported_low_comes_from_own_score (s : ScanResult) (tw sym : String)
    (f : List (String × String)) (n : ℤ) :
    ∀ w ∈ (analyzeHoldings s tw sym f n).wallets, w.confidence = Confidence.low →
      ∃ sc ∈ walletScoresOf s (lowerStr tw) f, sc.address = w.address ∧
        tierOfScore sc.score = Confidence.low := by
  intro w hw hlow
  obtain ⟨sc, hmem, haddr, hconf⟩ := final_wallet_from_score s (lowerStr tw) f w hw
  rcases hconf with h | h | h
  · exact ⟨sc, hmem, haddr, by rw [← h, hlow]⟩
  · rw [hlow] at h
    cases h
  · rw [hlow] at h
    cases h

/-- C4 (witness): the Scenario A report has a (first) wallet, and it comes
from an admitted score of at least 15. -/
theorem score_floor_witness :
    ∃ sc ∈ walletScoresOf c8In (lowerStr "0xtt") [],
      sc.address =
        (((analyzeHoldings c8In "0xtt" "TOK" [] 0).wallets).head
          (of_decide_eq_true (by with_unfolding_all rfl))).address ∧
      15 ≤ sc.score :=
  score_floor c8In "0xtt" "TOK" [] 0 _ (List.head_mem _)

/-- C1 (witness): the LOW-confidence wallet of the `lowIn` report indeed
carries the LOW tier computed from its own score. -/
theorem reported_low_witness :
    ∃ sc ∈ walletScoresOf lowIn (lowerStr "0xtt") [],
      sc.address =
        (((analyzeHoldings lowIn "0xtt" "TOK" [] 0).wallets).head
          (of_decide_eq_true (by with_unfolding_all rfl))).address ∧
      tierOfScore sc.score = Confidence.low :=
  reported_low_comes_from_own_score lowIn "0xtt" "TOK" [] 0 _ (List.head_mem _)
    (of_decide_eq_true (by with_unfolding_all rfl))

/-! ### Scenario A characterization (claim C8) -/

/-- A filter known to produce a singleton also produces that singleton for
any selective refinement of its predicate that still admits the element. -/
theorem filter_eq_singleton_of_imp {α : Type} (p q : α → Bool) (a : α) :
    ∀ l : List α, l.filter q = [a] → (∀ x ∈ l, p x = true → q x = true) →
      p a = true → l.filter p = [a]
  | [], hq, _, _ => by simp at hq
  | x :: xs, hq, himp, hpa => by
    by_cases hqx : q x = true
    · rw [List.filter_cons_of_pos hqx] at hq
      injection hq with h1 h2
      subst h1
      rw [List.filter_cons_of_pos hpa]
      have hnil : xs.filter p = [] := by
        rw [List.filter_eq_nil_iff]
        intro y hy hpy
        exact List.filter_eq_nil_iff.mp h2 y hy (himp y (List.mem_cons_of_mem x hy) hpy)
      rw [hnil]
    · rw [List.filter_cons_of_neg hqx] at hq
      have hpx : ¬p x = true := fun hp => hqx (himp x (List.mem_cons_self x xs) hp)
      rw [List.filter_cons_of_neg hpx]
      exact filter_eq_singleton_of_imp p q a xs hq
        (fun y hy => himp y (List.mem_cons_of_mem x hy)) hpa

/-- Membership after a `Set.add`. -/
theorem mem_insertIfAbsent {l : List String} {x a : String}
    (h : a ∈ insertIfAbsent l x) : a ∈ l ∨ a = x := by
  unfold insertIfAbsent at h
  by_cases hc : l.contains x = true
  · rw [if_pos hc] at h
    exact Or.inl h
  · rw [if_neg hc] at h
    rcases List.mem_append.mp h with h | h
    · exact Or.inl h
    · exact Or.inr (List.mem_singleton.mp h)

/-- Every address collected by a pass-through step is either already
collected or the lower-cased address of the ghost just examined. -/
theorem passThroughStep_mem (acc : List String × List (String × String))
    (g : WalletHistory) {a : String} (h : a ∈ (passThroughStep acc g).1) :
    a ∈ acc.1 ∨ a = lowerStr g.address := by
  cases hh : g.disposition.sentToWallets.recipients.head? with
  | none =>
    simp only [passThroughStep, hh] at h
    exact Or.inl h
  | some topRecip =>
    simp only [passThroughStep, hh] at h
    split at h
    · split at h
      · exact mem_insertIfAbsent h
      · exact Or.inl h
    · exact Or.inl h

/-- Addresses collected by the pass-through fold all come from the ghost
list folded over. -/
theorem foldl_passThroughStep_mem :
    ∀ (gs : List WalletHistory) (acc : List String × List (String × String)) (a : String),
      a ∈ (gs.foldl passThroughStep acc).1 →
        a ∈ acc.1 ∨ ∃ g ∈ gs, a = lowerStr g.address
  | [], _, _, h => Or.inl h
  | g :: gs, acc, a, h => by
    rcases foldl_passThroughStep_mem gs (passThroughStep acc g) a h with h1 | ⟨g', hg', he⟩
    · rcases passThroughStep_mem acc g h1 with h2 | h2
      · exact Or.inl h2
      · exact Or.inr ⟨g, List.mem_cons_self g gs, h2⟩
    · exact Or.inr ⟨g', List.mem_cons_of_mem g hg', he⟩

/-- Every detected pass-through address is the lower-cased address of some
ghost wallet. -/
theorem passThroughOf_mem (s : ScanResult) {a : String}
    (h : a ∈ (passThroughOf s).1) : ∃ g ∈ ghostWalletsOf s, a = lowerStr g.address := by
  rcases foldl_passThroughStep_mem (ghostWalletsOf s) ([], []) a h with h1 | h1
  · simp at h1
  · exact h1

/-- `List.lookup` after a `Map.set`. -/
theorem lookup_alSet {α : Type} :
    ∀ (m : List (String × α)) (k k' : String) (v : α),
      (alSet m k v).lookup k' = if k' == k then some v else m.lookup k'
  | [], k, k', v => by
    show List.lookup k' [(k, v)] = _
    cases h2 : k' == k <;> simp [List.lookup, h2]
  | (pk, pv) :: m, k, k', v => by
    show (if pk == k then (k, v) :: m else (pk, pv) :: alSet m k v).lookup k' = _
    by_cases h1 : pk = k
    · subst h1
      rw [if_pos (beq_self_eq_true pk), List.lookup_cons, List.lookup_cons]
      cases h2 : k' == pk <;> simp [h2]
    · have h1b : ¬((pk == k) = true) := by simp [h1]
      rw [if_neg h1b, List.lookup_cons, List.lookup_cons, lookup_alSet m k k' v]
      by_cases h2 : k' = k
      · subst h2
        have h3 : (k' == pk) = false := by
          cases hb : k' == pk
          · rfl
          · exact absurd (eq_of_beq hb).symm h1
        simp [h3]
      · have h4 : (k' == k) = false := beq_eq_false_iff_ne.mpr h2
        simp [h4]

/-- Every entry of the wallet-history map stores the reconstruction of its
own key. -/
theorem foldl_alSet_reconstruct_lookup (transfers : List TransferTx) (d : ℤ)
    (cs : List String) (bal : List (String × ℚ)) :
    ∀ (nodes : List GraphNode) (m : List (String × WalletHistory)),
      (∀ k h, m.lookup k = some h → h = reconstructWalletHistory k transfers d cs bal) →
      ∀ k h,
        (nodes.foldl (fun m n =>
          alSet m n.id (reconstructWalletHistory n.id transfers d cs bal)) m).lookup k =
            some h →
        h = reconstructWalletHistory k transfers d cs bal
  | [], _, hm, k, h, hl => hm k h hl
  | n :: nodes, m, hm, k, h, hl => by
    refine foldl_alSet_reconstruct_lookup transfers d cs bal nodes _ ?_ k h hl
    intro k' h' hl'
    rw [lookup_alSet] at hl'
    by_cases hb : (k' == n.id) = true
    · rw [if_pos hb] at hl'
      injection hl' with hl'
      rw [← hl', eq_of_beq hb]
    · rw [if_neg hb] at hl'
      exact hm k' h' hl'

/-- Any history looked up in the wallet-history map is the reconstruction
of the looked-up key. -/
theorem walletHistoryAList_lookup (s : ScanResult) (k : String) (h : WalletHistory)
    (hl : (walletHistoryAListOf s).lookup k = some h) :
    h = reconstructWalletHistory k s.transfers (decimalsOf s.transfers)
      s.detectedContracts s.balances :=
  foldl_alSet_reconstruct_lookup s.transfers (decimalsOf s.transfers) s.detectedContracts
    s.balances (walletNodesOf s.nodes) []
    (fun k h hl => by
      rw [List.lookup_nil] at hl
      exact Option.noConfusion hl)
    k h hl

/-- Wallet names equal after lower-casing reconstruct histories that agree
on `isGhost`. -/
theorem reconstruct_isGhost_congr (w1 w2 : String) (transfers : List TransferTx)
    (d : ℤ) (cs : List String) (bal : List (String × ℚ))
    (h : lowerStr w1 = lowerStr w2) :
    (reconstructWalletHistory w1 transfers d cs bal).isGhost =
      (reconstructWalletHistory w2 transfers d cs bal).isGhost := by
  simp only [reconstructWalletHistory, replayStateOf, walletTxsOf, h]

/-- A wallet whose only incoming transfer carries a positive amount from
the target is classified `from-target` by the origin tracer. -/
theorem traceTokenOrigin_singleton_fromTarget (walletAddr target : String)
    (transfers : List TransferTx) (cs : List String) (d : ℤ) (tx0 : TransferTx) (v : ℚ)
    (hinc : incomingOf transfers (lowerStr walletAddr) = [tx0])
    (hfrom : lowerStr tx0.from_ = target)
    (hval : valOf d tx0 = some v) (hv : 0 < v) :
    (traceTokenOrigin walletAddr target transfers cs d).1 = TokenOrigin.fromTarget := by
  have hdv : v / v = 1 := div_self hv.ne'
  have hsums : originSumsOf walletAddr target transfers cs d =
      { fromTarget := some v
        fromDex := some 0
        fromThirdParty := some 0
        largestSource := target
        largestAmount := some v
        largestTs := parseIntJS tx0.timeStamp } := by
    unfold originSumsOf
    rw [hinc]
    simp only [List.foldl_cons, List.foldl_nil, originStep, hfrom, hval]
    norm_num [jsAdd, jsGt, hv]
  simp only [traceTokenOrigin, hinc, hsums]
  norm_num [jsEq, jsAdd, jsDiv, jsGe, hv.ne', hdv]

/-- One step of the confidence-override loop leaves every wallet outside
the pass-through set untouched. -/
theorem overrideStep_keeps (ptW : List String) (ptT : List (String × String))
    (ws : List HiddenHoldingWallet) (i j : ℕ) (w : HiddenHoldingWallet)
    (hj : ws[j]? = some w) (hnc : ptW.contains (lowerStr w.address) = false) :
    (overrideStep ptW ptT ws i)[j]? = some w := by
  rcases overrideStep_cases ptW ptT ws i with heq | ⟨w0, c, hwi, hcont, _, heq⟩
  · rw [heq, hj]
  · rw [heq, List.getElem?_set]
    by_cases hij : i = j
    · subst hij
      rw [hj] at hwi
      injection hwi with hwi
      rw [← hwi] at hcont
      rw [hnc] at hcont
      exact Bool.noConfusion hcont
    · rw [if_neg hij, hj]

/-- The override fold leaves every wallet outside the pass-through set
untouched. -/
theorem foldl_overrideStep_keeps (ptW : List String) (ptT : List (String × String)) :
    ∀ (idxs : List ℕ) (ws : List HiddenHoldingWallet) (j : ℕ) (w : HiddenHoldingWallet),
      ws[j]? = some w → ptW.contains (lowerStr w.address) = false →
      (idxs.foldl (overrideStep ptW ptT) ws)[j]? = some w
  | [], _, _, _, hj, _ => hj
  | i :: idxs, ws, j, w, hj, hnc =>
    foldl_overrideStep_keeps ptW ptT idxs (overrideStep ptW ptT ws i) j w
      (overrideStep_keeps ptW ptT ws i j w hj hnc) hnc

/-- The confidence-override pass leaves every wallet outside the
pass-through set untouched. -/
theorem applyOverride_keeps (ptW : List String) (ptT : List (String × String))
    (ws : List HiddenHoldingWallet) (j : ℕ) (w : HiddenHoldingWallet)
    (hj : ws[j]? = some w) (hnc : ptW.contains (lowerStr w.address) = false) :
    (applyOverride ptW ptT ws)[j]? = some w :=
  foldl_overrideStep_keeps ptW ptT (List.range ws.length) ws j w hj hnc

/-- Timing correlation is 0 for a single transfer with the target. -/
theorem checkTimingCorrelation_singleton (tx : TransferTx) (target : String) :
    checkTimingCorrelation [tx] target = 0 := by
  unfold checkTimingCorrelation
  rw [if_pos (by simp)]

/-- C8 (amended): Scenario A pins the score to 40 and the confidence to
MEDIUM once the two extra heuristics its conditions leave open are ruled
out.  Hypotheses: `node` is a non-contract, non-target wallet node whose
id is its own lower-cased address, distinct from the target; its only
transfer with anyone is the single incoming transfer `tx0` of 100 tokens
from the target; it currently holds 100 (node balance and balance map);
the graph links record the target→wallet edge and no wallet→target edge;
no funding source is recorded for it; and it is not in a detected
sequential-dispersal group.  Conclusion: the scorer gives it exactly 40
with reasons received-then-held (+10), isolated-activity (+10) and the
from-target holding bonus (+20) — no bidirectional heuristic — the origin
is `from-target`, and the final report lists it with MEDIUM confidence. -/
theorem scenarioA_isolated_wallet_score_forty_medium
    (s : ScanResult) (tw sym : String) (f : List (String × String)) (n : ℤ)
    (node : GraphNode) (tx0 : TransferTx) (l0 : GraphLink)
    (hnode : node ∈ s.nodes) (hnc : node.isContract = false) (hnt : node.isTarget = false)
    (hlow : lowerStr node.id = node.id) (haddr : lowerStr node.address = node.id)
    (hne : ¬(lowerStr tw = node.id))
    (htxs : s.transfers.filter (fun tx =>
        (lowerStr tx.from_) == node.id || (lowerStr tx.to_) == node.id) = [tx0])
    (hfrom : lowerStr tx0.from_ = lowerStr tw) (hto : lowerStr tx0.to_ = node.id)
    (hval : valOf (decimalsOf s.transfers) tx0 = some 100)
    (hbalnode : node.balance = some 100)
    (hbal : s.balances.lookup node.id = some 100)
    (hsent : sentLinkOf s.links (lowerStr tw) node.id = some l0)
    (hrecv : recvLinkOf s.links (lowerStr tw) node.id = none)
    (hfund : f.lookup node.id = none)
    (hseq : (sequentialWalletsOf s.transfers (lowerStr tw)).contains node.id = false) :
    (scoreWalletOf s (lowerStr tw) f node).score = 40 ∧
    (scoreWalletOf s (lowerStr tw) f node).reasons =
      ["Received tokens and still holding", "No token activity with anyone else",
       "Tokens received directly from target and held"] ∧
    (scoreWalletOf s (lowerStr tw) f node).tokenOrigin = TokenOrigin.fromTarget ∧
    toHiddenOf s (scoreWalletOf s (lowerStr tw) f node) ∈
      (analyzeHoldings s tw sym f n).wallets ∧
    (toHiddenOf s (scoreWalletOf s (lowerStr tw) f node)).confidence =
      Confidence.medium := by
  have huniq : ∀ tx ∈ s.transfers,
      ((lowerStr tx.from_) == node.id || (lowerStr tx.to_) == node.id) = true → tx = tx0 := by
    intro tx htx hq
    have hmem : tx ∈ s.transfers.filter (fun tx =>
        (lowerStr tx.from_) == node.id || (lowerStr tx.to_) == node.id) :=
      List.mem_filter.mpr ⟨htx, hq⟩
    rw [htxs] at hmem
    exact List.mem_singleton.mp hmem
  have hpeer : peerTxsOf s.transfers (lowerStr tw) node.id = [tx0] := by
    unfold peerTxsOf
    refine filter_eq_singleton_of_imp _ _ tx0 s.transfers htxs ?_ ?_
    · intro x hx hpx
      have hpx' : (((lowerStr x.from_) == lowerStr tw || (lowerStr x.to_) == lowerStr tw) &&
          ((if (lowerStr x.from_) == lowerStr tw then lowerStr x.to_ else lowerStr x.from_) ==
            node.id)) = true := hpx
      show ((lowerStr x.from_) == node.id || (lowerStr x.to_) == node.id) = true
      rw [Bool.and_eq_true] at hpx'
      obtain ⟨h1, h2⟩ := hpx'
      rw [Bool.or_eq_true]
      by_cases hf : ((lowerStr x.from_) == lowerStr tw) = true
      · rw [if_pos hf] at h2
        exact Or.inr h2
      · rw [if_neg hf] at h2
        exact Or.inl h2
    · show (((lowerStr tx0.from_) == lowerStr tw || (lowerStr tx0.to_) == lowerStr tw) &&
          ((if (lowerStr tx0.from_) == lowerStr tw then lowerStr tx0.to_
            else lowerStr tx0.from_) == node.id)) = true
      have hf : ((lowerStr tx0.from_) == lowerStr tw) = true := by
        rw [hfrom]
        exact beq_self_eq_true _
      rw [Bool.and_eq_true]
      refine ⟨?_, ?_⟩
      · rw [Bool.or_eq_true]
        exact Or.inl hf
      · rw [if_pos hf, hto]
        exact beq_self_eq_true _
  have hincoming : incomingOf s.transfers node.id = [tx0] := by
    unfold incomingOf
    refine filter_eq_singleton_of_imp _ _ tx0 s.transfers htxs ?_ ?_
    · intro x hx hpx
      have hpx' : ((lowerStr x.to_) == node.id) = true := hpx
      show ((lowerStr x.from_) == node.id || (lowerStr x.to_) == node.id) = true
      rw [Bool.or_eq_true]
      exact Or.inr hpx'
    · show ((lowerStr tx0.to_) == node.id) = true
      rw [hto]
      exact beq_self_eq_true _
  have hother : checkOtherActivity node.id (lowerStr tw) s.transfers = false := by
    unfold checkOtherActivity
    rw [List.any_eq_false]
    intro tx htx hp
    have hp' : (((lowerStr tx.from_) == lowerStr node.id &&
        (lowerStr tx.to_) != lowerStr tw) ||
        ((lowerStr tx.to_) == lowerStr node.id &&
        (lowerStr tx.from_) != lowerStr tw)) = true := hp
    rw [hlow, Bool.or_eq_true, Bool.and_eq_true, Bool.and_eq_true] at hp'
    rcases hp' with ⟨hf, _⟩ | ⟨ht2, hf2⟩
    · have htt : tx = tx0 := huniq tx htx (by rw [Bool.or_eq_true]; exact Or.inl hf)
      subst htt
      rw [hfrom] at hf
      exact hne (eq_of_beq hf)
    · have htt : tx = tx0 := huniq tx htx (by rw [Bool.or_eq_true]; exact Or.inr ht2)
      subst htt
      rw [hfrom, bne_self_eq_false] at hf2
      exact Bool.noConfusion hf2
  have hincoming' : incomingOf s.transfers (lowerStr node.id) = [tx0] := by
    rw [hlow]
    exact hincoming
  have horigin : (traceTokenOrigin node.id (lowerStr tw) s.transfers s.detectedContracts
      (decimalsOf s.transfers)).1 = TokenOrigin.fromTarget :=
    traceTokenOrigin_singleton_fromTarget node.id (lowerStr tw) s.transfers
      s.detectedContracts (decimalsOf s.transfers) tx0 100 hincoming' hfrom hval
      (by norm_num)
  have hwtx : walletTxsOf node.id s.transfers = [tx0] := by
    unfold walletTxsOf
    rw [hlow, htxs]
    rfl
  have hstate : replayStateOf node.id s.transfers (decimalsOf s.transfers)
      s.detectedContracts =
      replayStep (lowerStr node.id) (decimalsOf s.transfers) s.detectedContracts
        initReplayState tx0 := by
    unfold replayStateOf
    rw [hwtx]
    rfl
  have hpeaksent : (replayStateOf node.id s.transfers (decimalsOf s.transfers)
        s.detectedContracts).peakBalance = some 100 ∧
      (replayStateOf node.id s.transfers (decimalsOf s.transfers)
        s.detectedContracts).totalSent = some 0 := by
    rw [hstate]
    simp only [replayStep, hto, hlow, hval, initReplayState]
    norm_num [jsAdd, jsLt, jsGt]
  have hghostW : (reconstructWalletHistory node.id s.transfers (decimalsOf s.transfers)
      s.detectedContracts s.balances).isGhost = false := by
    show (jsGt (replayStateOf node.id s.transfers (decimalsOf s.transfers)
        s.detectedContracts).peakBalance (some 0) &&
      jsLe (some (((s.balances.lookup (lowerStr node.id)).getD 0 : ℚ)))
        (jsMul (replayStateOf node.id s.transfers (decimalsOf s.transfers)
          s.detectedContracts).peakBalance (some (1 / 100)))) = false
    rw [hlow, hbal, hpeaksent.1]
    norm_num [jsGt, jsLe, jsMul, Option.getD_some]
  have hgall : ∀ g ∈ ghostWalletsOf s, ¬(lowerStr g.address = node.id) := by
    intro g hg heq
    have hgmem : g ∈ walletHistoriesOf s := (List.mem_filter.mp hg).1
    have hghost : g.isGhost = true := (List.mem_filter.mp hg).2
    obtain ⟨nn, hnn, hrec⟩ := List.mem_map.mp hgmem
    have hrec' : reconstructWalletHistory nn.id s.transfers (decimalsOf s.transfers)
        s.detectedContracts s.balances = g := hrec
    have haddrg : g.address = nn.id := by
      rw [← hrec']
      rfl
    have hlg : lowerStr nn.id = lowerStr node.id := by
      rw [← haddrg, heq, hlow]
    have hcongr := reconstruct_isGhost_congr nn.id node.id s.transfers
      (decimalsOf s.transfers) s.detectedContracts s.balances hlg
    rw [← hrec', hcongr, hghostW] at hghost
    exact Bool.noConfusion hghost
  have hptW : (passThroughOf s).1.contains node.id = false := by
    cases hcont : (passThroughOf s).1.contains node.id
    · rfl
    · exfalso
      have hmem : node.id ∈ (passThroughOf s).1 := List.elem_iff.mp hcont
      obtain ⟨g, hg, hgad⟩ := passThroughOf_mem s hmem
      exact hgall g hg hgad.symm
  have hhist : ∀ h : WalletHistory, (walletHistoryAListOf s).lookup node.id = some h →
      h.totalSent = some 0 := by
    intro h hl
    rw [walletHistoryAList_lookup s node.id h hl]
    show (replayStateOf node.id s.transfers (decimalsOf s.transfers)
      s.detectedContracts).totalSent = some 0
    exact hpeaksent.2
  have hts2 : checkTimingCorrelation [tx0] (lowerStr tw) = 0 :=
    checkTimingCorrelation_singleton tx0 (lowerStr tw)
  have hseqP : ¬(node.id ∈ sequentialWalletsOf s.transfers (lowerStr tw)) := by
    intro hm
    have hb : (sequentialWalletsOf s.transfers (lowerStr tw)).contains node.id = true :=
      List.elem_iff.mpr hm
    rw [hseq] at hb
    exact Bool.noConfusion hb
  have hptP : ¬(node.id ∈ (passThroughOf s).1) := by
    intro hm
    have hb : (passThroughOf s).1.contains node.id = true := List.elem_iff.mpr hm
    rw [hptW] at hb
    exact Bool.noConfusion hb
  have hA : (scoreWalletOf s (lowerStr tw) f node).score = 40 ∧
      (scoreWalletOf s (lowerStr tw) f node).reasons =
        ["Received tokens and still holding", "No token activity with anyone else",
         "Tokens received directly from target and held"] ∧
      (scoreWalletOf s (lowerStr tw) f node).tokenOrigin = TokenOrigin.fromTarget := by
    cases hh : (walletHistoryAListOf s).lookup node.id with
    | none =>
      refine ⟨?_, ?_, ?_⟩ <;>
        norm_num [scoreWalletOf, hpeer, hsent, hrecv, hfund, hseqP, hh, horigin, hother,
          hbalnode, hts2, hptP]
    | some h =>
      have hgt : jsGt h.totalSent (some 0) = false := by
        rw [hhist h hh]
        norm_num [jsGt]
      refine ⟨?_, ?_, ?_⟩ <;>
        norm_num [scoreWalletOf, hpeer, hsent, hrecv, hfund, hseqP, hh, hgt, horigin,
          hother, hbalnode, hts2, hptP]
  have hwn : node ∈ walletNodesOf s.nodes := by
    unfold walletNodesOf
    refine List.mem_filter.mpr ⟨hnode, ?_⟩
    show (!node.isContract && !node.isTarget) = true
    rw [hnc, hnt]
    rfl
  have hsc : scoreWalletOf s (lowerStr tw) f node ∈ walletScoresOf s (lowerStr tw) f := by
    unfold walletScoresOf
    refine List.mem_filterMap.mpr ⟨node, hwn, ?_⟩
    show (if 15 ≤ (scoreWalletOf s (lowerStr tw) f node).score then
        some (scoreWalletOf s (lowerStr tw) f node) else none) =
      some (scoreWalletOf s (lowerStr tw) f node)
    rw [hA.1]
    norm_num
  have hpre : toHiddenOf s (scoreWalletOf s (lowerStr tw) f node) ∈
      preOverrideWalletsOf s (lowerStr tw) f := by
    unfold preOverrideWalletsOf sortedScoresOf
    exact List.mem_map_of_mem (toHiddenOf s) ((mem_stableSort scoreDescLe _ _).mpr hsc)
  obtain ⟨j, hj⟩ := List.mem_iff_getElem?.mp hpre
  have hcontW : (passThroughOf s).1.contains
      (lowerStr (toHiddenOf s (scoreWalletOf s (lowerStr tw) f node)).address) = false := by
    show (passThroughOf s).1.contains (lowerStr node.address) = false
    rw [haddr]
    exact hptW
  have happ : (walletsOf s (lowerStr tw) f)[j]? =
      some (toHiddenOf s (scoreWalletOf s (lowerStr tw) f node)) := by
    unfold walletsOf
    exact applyOverride_keeps (passThroughOf s).1 (passThroughOf s).2 _ j _ hj hcontW
  have hmemw : toHiddenOf s (scoreWalletOf s (lowerStr tw) f node) ∈
      walletsOf s (lowerStr tw) f := List.mem_iff_getElem?.mpr ⟨j, happ⟩
  refine ⟨hA.1, hA.2.1, hA.2.2, hmemw, ?_⟩
  show tierOfScore (scoreWalletOf s (lowerStr tw) f node).score = Confidence.medium
  rw [hA.1]
  norm_num [tierOfScore]

/-- C8 (witness): the Scenario A theorem applied to the `c8In` input with
an empty funding map: wallet `0xww` scores exactly 40 with the three
expected reasons, origin `from-target`, and is reported with MEDIUM
confidence. -/
theorem scenarioA_isolated_wallet_witness :
    (scoreWalletOf c8In (lowerStr "0xtt") []
      (mkNode "0xww" false false (some 100))).score = 40 ∧
    (scoreWalletOf c8In (lowerStr "0xtt") []
      (mkNode "0xww" false false (some 100))).reasons =
      ["Received tokens and still holding", "No token activity with anyone else",
       "Tokens received directly from target and held"] ∧
    (scoreWalletOf c8In (lowerStr "0xtt") []
      (mkNode "0xww" false false (some 100))).tokenOrigin = TokenOrigin.fromTarget ∧
    toHiddenOf c8In (scoreWalletOf c8In (lowerStr "0xtt") []
      (mkNode "0xww" false false (some 100))) ∈
      (analyzeHoldings c8In "0xtt" "TOK" [] 0).wallets ∧
    (toHiddenOf c8In (scoreWalletOf c8In (lowerStr "0xtt") []
      (mkNode "0xww" false false (some 100)))).confidence = Confidence.medium :=
  scenarioA_isolated_wallet_score_forty_medium c8In "0xtt" "TOK" [] 0
    (mkNode "0xww" false false (some 100)) (mkTx "0xh1" "0xtt" "0xww" "1000" "1000")
    { source := "0xtt", target := "0xww", value := 100, txCount := 1,
      direction := LinkDirection.sent }
    (of_decide_eq_true (by with_unfolding_all rfl))
    (of_decide_eq_true (by with_unfolding_all rfl))
    (of_decide_eq_true (by with_unfolding_all rfl))
    (of_decide_eq_true (by with_unfolding_all rfl))
    (of_decide_eq_true (by with_unfolding_all rfl))
    (of_decide_eq_true (by with_unfolding_all rfl))
    (of_decide_eq_true (by with_unfolding_all rfl))
    (of_decide_eq_true (by with_unfolding_all rfl))
    (of_decide_eq_true (by with_unfolding_all rfl))
    (of_decide_eq_true (by with_unfolding_all rfl))
    (of_decide_eq_true (by with_unfolding_all rfl))
    (of_decide_eq_true (by with_unfolding_all rfl))
    (of_decide_eq_true (by with_unfolding_all rfl))
    (of_decide_eq_true (by with_unfolding_all rfl))
    (of_decide_eq_true (by with_unfolding_all rfl))
    (of_decide_eq_true (by with_unfolding_all rfl))

end TokenCluster
